import Mathlib

/-!
Verification of the `tastar` backend against its specification.

This file gives a shallow embedding, in Lean 4, of the parts of the backend
that the specification talks about:

* the transaction-matching endpoints
  (`backend/app/api/v1/endpoints/matching.py`: `create_match`,
  `list_matches`, `get_exceptions`, `resolve_exception`);
* the aging reports
  (`backend/app/api/v1/endpoints/reports.py`: `get_aging_receivables`,
  `get_aging_payables`);
* the document-processing pipeline
  (`backend/app/services/document_service.py`: `process_document`,
  `_extract_text`, `_classify_document`) and the ML service fallback
  (`backend/app/services/ml_service.py`: `MLService.classify_document`).

Conventions of the embedding:

* Python `Decimal` values (amounts, tolerances, confidences) are embedded as
  `ℚ` (`Decimal` arithmetic is exact, so `ℚ` is a faithful carrier).
* SQL `Date` / `DateTime` values are embedded as `ℤ` (day ordinals /
  timestamps); Python date subtraction `(a - b).days` becomes `a - b`.
* UUIDs are embedded as `Nat`.  A request-supplied id *string* is embedded as
  `Option Nat` (`some n`: a string that `uuid.UUID` parses to the UUID `n`;
  `none`: a string on which `uuid.UUID` raises `ValueError`).
* The database session is embedded as explicit lists of rows; a SQLAlchemy
  `query(...).filter(...)` becomes `List.filter` / `List.find?`, and a commit
  of a new row becomes appending to the list.
* FastAPI `HTTPException` and Python exceptions are embedded with `Except`.
* Calls into third-party libraries (Tesseract, pdf2image, scikit-learn, the
  external AI service) are embedded as explicit function-valued parameters
  (an "oracle" for the library's behaviour, which may also raise); the
  repository's own control flow around those calls is translated faithfully.
-/

/-! ## Data model (backend/app/database/models.py) -/

/-- A request-supplied id string: `some n` parses as UUID `n`, `none` is a
string `uuid.UUID` rejects with `ValueError`. -/
abbrev UUIDStr := Option Nat

/-- The authenticated user (`User` model; the endpoints only use `id` and
`company_id`). -/
structure User where
  id : Nat
  company_id : Nat
  deriving Repr, DecidableEq

/-- `PurchaseOrder` model (fields used by the matching endpoint). -/
structure PurchaseOrder where
  id : Nat
  company_id : Nat
  total_amount : ℚ
  deriving Repr, DecidableEq

/-- `Customer` model (fields used by the aging report). -/
structure Customer where
  id : Nat
  name : String
  deriving Repr, DecidableEq

/-- `Supplier` model (fields used by the aging report). -/
structure Supplier where
  id : Nat
  name : String
  deriving Repr, DecidableEq

/-- `Invoice` model (fields used by matching and the aging report). -/
structure Invoice where
  id : Nat
  company_id : Nat
  customer_id : Nat
  invoice_number : String
  invoice_date : ℤ
  due_date : ℤ
  total_amount : ℚ
  balance_amount : ℚ
  status : String
  deleted_at : Option ℤ
  deriving Repr, DecidableEq

/-- `Bill` model (fields used by matching and the aging report). -/
structure Bill where
  id : Nat
  company_id : Nat
  supplier_id : Nat
  bill_number : String
  vendor_invoice_number : String
  bill_date : ℤ
  due_date : ℤ
  total_amount : ℚ
  balance_amount : ℚ
  status : String
  deriving Repr, DecidableEq

/-- `TransactionMatching` model.  `create_match` never assigns the
`delivery_order_id` column (it is absent from the constructor call at
matching.py lines 118-132), so created rows always carry `none` there. -/
structure TransactionMatching where
  id : Nat
  company_id : Nat
  purchase_order_id : Option Nat
  delivery_order_id : Option Nat
  invoice_id : Option Nat
  bill_id : Option Nat
  match_type : String
  match_status : String
  match_confidence_score : ℚ
  amount_variance : Option ℚ
  quantity_variance : Option ℚ
  date_variance : Option ℤ
  tolerance_threshold : ℚ
  within_tolerance : Option Bool
  exception_reason : Option String
  exception_resolved : Bool
  matched_at : Option ℤ
  matched_by : Option Nat
  created_at : ℤ
  updated_at : ℤ
  deriving Repr, DecidableEq

/-- The database tables read or written by the endpoints under study. -/
structure DB where
  purchaseOrders : List PurchaseOrder
  invoices : List Invoice
  bills : List Bill
  customers : List Customer
  suppliers : List Supplier
  matchings : List TransactionMatching
  deriving Repr, DecidableEq

/-- An `HTTPException(status_code, detail)`. -/
structure HttpErr where
  status_code : Nat
  detail : String
  deriving Repr, DecidableEq

/-- Decidable equality of endpoint outcomes. -/
instance {ε α : Type} [DecidableEq ε] [DecidableEq α] :
    DecidableEq (Except ε α) := fun x y =>
  match x, y with
  | .ok a, .ok b =>
      if h : a = b then .isTrue (by rw [h])
      else .isFalse (fun hh => absurd (Except.ok.inj hh) h)
  | .error a, .error b =>
      if h : a = b then .isTrue (by rw [h])
      else .isFalse (fun hh => absurd (Except.error.inj hh) h)
  | .ok _, .error _ => .isFalse (fun hh => Except.noConfusion hh)
  | .error _, .ok _ => .isFalse (fun hh => Except.noConfusion hh)

/-! ## Transaction matching (backend/app/api/v1/endpoints/matching.py) -/

/-- Request body `TransactionMatchingCreate`
(`backend/app/schemas/matching.py`).  Each reference field is
`Option UUIDStr`: the outer `Option` is presence of the (truthy) string in
the request, the inner one is whether `uuid.UUID` can parse it. -/
structure TransactionMatchingCreate where
  purchase_order_id : Option UUIDStr := none
  delivery_order_id : Option UUIDStr := none
  invoice_id : Option UUIDStr := none
  bill_id : Option UUIDStr := none
  match_type : String
  tolerance_threshold : Option ℚ := none
  deriving Repr, DecidableEq

/-- `len(provided_refs)` for
`refs = [purchase_order_id, delivery_order_id, invoice_id, bill_id]`
(matching.py lines 26-32). -/
def countProvided (m : TransactionMatchingCreate) : Nat :=
  (if m.purchase_order_id.isSome then 1 else 0) +
  (if m.delivery_order_id.isSome then 1 else 0) +
  (if m.invoice_id.isSome then 1 else 0) +
  (if m.bill_id.isSome then 1 else 0)

/-- `match_data.tolerance_threshold or Decimal("0.01")` (matching.py lines
94, 107, 127).  Python's `or` falls through on *falsy* values, and
`Decimal("0")` is falsy, so a supplied zero tolerance is replaced by the
`0.01` default just like an omitted one. -/
def toleranceOr (t : Option ℚ) : ℚ :=
  match t with
  | some v => if v = 0 then (1 / 100 : ℚ) else v
  | none => 1 / 100

/-- `db.query(Model).filter(Model.id == uid, Model.company_id == cid).first()`
for each of the three referenced tables. -/
def findPO (db : DB) (cid uid : Nat) : Option PurchaseOrder :=
  db.purchaseOrders.find? (fun p => p.id == uid && p.company_id == cid)

def findInvoice (db : DB) (cid uid : Nat) : Option Invoice :=
  db.invoices.find? (fun i => i.id == uid && i.company_id == cid)

def findBill (db : DB) (cid uid : Nat) : Option Bill :=
  db.bills.find? (fun b => b.id == uid && b.company_id == cid)

/-- One `if match_data.X_id: try: ... uuid.UUID ... .first() ...` block of
`create_match` (matching.py lines 52-83): absent field passes with no row,
an unparsable id is a 400, a parsable id whose row is not in the user's
company is a 404. -/
def resolveRef {α : Type} (field : Option UUIDStr) (find : Nat → Option α)
    (badFormatMsg notFoundMsg : String) : Except HttpErr (Option α) :=
  match field with
  | none => .ok none
  | some none => .error ⟨400, badFormatMsg⟩
  | some (some uid) =>
      match find uid with
      | none => .error ⟨404, notFoundMsg⟩
      | some x => .ok (some x)

/-- The matching decision of `create_match` (matching.py lines 85-115):
`(amount_variance, within_tolerance, match_status, confidence_score)`.
`if po and bill: ... elif po and invoice: ...` — only two totals are ever
compared, and a delivery order never participates (no delivery-order table
exists; the endpoint only imports `PurchaseOrder`, `Invoice`, `Bill`). -/
def matchDecision (po : Option PurchaseOrder) (invoice : Option Invoice)
    (bill : Option Bill) (tolOpt : Option ℚ) :
    Option ℚ × Option Bool × String × ℚ :=
  match po, bill with
  | some p, some b =>
      let v := |p.total_amount - b.total_amount|
      let tol := toleranceOr tolOpt
      let w := decide (v ≤ tol)
      (some v, some w, if w then "matched" else "exception",
        if w then (95 / 100 : ℚ) else 1 / 2)
  | _, _ =>
      match po, invoice with
      | some p, some i =>
          let v := |p.total_amount - i.total_amount|
          let tol := toleranceOr tolOpt
          let w := decide (v ≤ tol)
          (some v, some w, if w then "matched" else "exception",
            if w then (95 / 100 : ℚ) else 1 / 2)
      | _, _ => (none, none, "pending", 0)

/-- `f"Amount variance: {amount_variance}" if amount_variance and not
within_tolerance else None` (matching.py line 129).  `amount_variance` is
falsy when `None` or zero; `not within_tolerance` is true when
`within_tolerance` is `None` or `False`. -/
def exceptionReasonOf (av : Option ℚ) (wt : Option Bool) : Option String :=
  match av with
  | some v =>
      if v ≠ 0 ∧ wt ≠ some true then
        some ("Amount variance: " ++ toString v)
      else none
  | none => none

/-- `uuid.UUID(match_data.X_id) if match_data.X_id else None` on a field that
already passed validation. -/
def parsedId (field : Option UUIDStr) : Option Nat :=
  match field with
  | some (some uid) => some uid
  | _ => none

/-- The `TransactionMatching(...)` constructor call of `create_match`
(matching.py lines 117-132). -/
def buildMatch (user : User) (m : TransactionMatchingCreate) (newId : Nat)
    (now : ℤ) (po : Option PurchaseOrder) (invoice : Option Invoice)
    (bill : Option Bill) : TransactionMatching :=
  let (amount_variance, within_tolerance, match_status, confidence_score) :=
    matchDecision po invoice bill m.tolerance_threshold
  { id := newId
    company_id := user.company_id
    purchase_order_id := parsedId m.purchase_order_id
    delivery_order_id := none
    invoice_id := parsedId m.invoice_id
    bill_id := parsedId m.bill_id
    match_type := m.match_type
    match_status := match_status
    match_confidence_score := confidence_score
    amount_variance := amount_variance
    quantity_variance := none
    date_variance := none
    tolerance_threshold := toleranceOr m.tolerance_threshold
    within_tolerance := within_tolerance
    exception_reason := exceptionReasonOf amount_variance within_tolerance
    exception_resolved := false
    matched_at := if match_status == "matched" then some now else none
    matched_by := if match_status == "matched" then some user.id else none
    created_at := now
    updated_at := now }

/-- `create_match` up to `db.add` (matching.py lines 18-132): the raised
`HTTPException` or the row to be inserted.  `newId` and `now` stand for the
generated UUID and `datetime.utcnow()`. -/
def createMatchE (user : User) (db : DB) (m : TransactionMatchingCreate)
    (newId : Nat) (now : ℤ) : Except HttpErr TransactionMatching :=
  if countProvided m < 2 then
    .error ⟨400, "At least two references (PO, DO, Invoice, Bill) are required for matching"⟩
  else if m.match_type == "three_way" && countProvided m < 3 then
    .error ⟨400, "Three-way matching requires at least three references"⟩
  else
    match resolveRef m.purchase_order_id (findPO db user.company_id)
        "Invalid purchase order ID format" "Purchase order not found" with
    | .error e => .error e
    | .ok po =>
        match resolveRef m.invoice_id (findInvoice db user.company_id)
            "Invalid invoice ID format" "Invoice not found" with
        | .error e => .error e
        | .ok invoice =>
            match resolveRef m.bill_id (findBill db user.company_id)
                "Invalid bill ID format" "Bill not found" with
            | .error e => .error e
            | .ok bill => .ok (buildMatch user m newId now po invoice bill)

/-- `create_match` including the commit: the endpoint's outcome together with
the `transaction_matching` table afterwards (unchanged on any error). -/
def createMatch (user : User) (db : DB) (m : TransactionMatchingCreate)
    (newId : Nat) (now : ℤ) :
    Except HttpErr TransactionMatching × List TransactionMatching :=
  match createMatchE user db m newId now with
  | .ok rec => (.ok rec, db.matchings ++ [rec])
  | .error e => (.error e, db.matchings)

/-- The `TransactionMatchingResponse` payload (`backend/app/schemas/matching.py`);
`str(...)` stringification of UUIDs is injective, so ids stay `Nat`. -/
structure TransactionMatchingResponse where
  id : Nat
  company_id : Nat
  purchase_order_id : Option Nat
  delivery_order_id : Option Nat
  invoice_id : Option Nat
  bill_id : Option Nat
  match_type : String
  match_status : String
  match_confidence_score : ℚ
  amount_variance : Option ℚ
  quantity_variance : Option ℚ
  date_variance : Option ℤ
  tolerance_threshold : ℚ
  within_tolerance : Option Bool
  exception_reason : Option String
  exception_resolved : Bool
  matched_at : Option ℤ
  matched_by : Option Nat
  created_at : ℤ
  updated_at : ℤ
  deriving Repr, DecidableEq

/-- The field-by-field `TransactionMatchingResponse(...)` construction used by
all four matching endpoints. -/
def toResponse (m : TransactionMatching) : TransactionMatchingResponse :=
  { id := m.id
    company_id := m.company_id
    purchase_order_id := m.purchase_order_id
    delivery_order_id := m.delivery_order_id
    invoice_id := m.invoice_id
    bill_id := m.bill_id
    match_type := m.match_type
    match_status := m.match_status
    match_confidence_score := m.match_confidence_score
    amount_variance := m.amount_variance
    quantity_variance := m.quantity_variance
    date_variance := m.date_variance
    tolerance_threshold := m.tolerance_threshold
    within_tolerance := m.within_tolerance
    exception_reason := m.exception_reason
    exception_resolved := m.exception_resolved
    matched_at := m.matched_at
    matched_by := m.matched_by
    created_at := m.created_at
    updated_at := m.updated_at }

/-- Stable insertion of a row into a list already sorted by `created_at`
descending (model of SQL `ORDER BY created_at DESC`). -/
def insertByCreatedDesc (m : TransactionMatching) :
    List TransactionMatching → List TransactionMatching
  | [] => [m]
  | x :: xs =>
      if x.created_at < m.created_at then m :: x :: xs
      else x :: insertByCreatedDesc m xs

/-- `query.order_by(TransactionMatching.created_at.desc())`. -/
def sortByCreatedDesc : List TransactionMatching → List TransactionMatching
  | [] => []
  | x :: xs => insertByCreatedDesc x (sortByCreatedDesc xs)

/-- `list_matches` (matching.py lines 161-207): company-scoped query with
optional status / match-type filters, ordering, pagination and
serialization. -/
def listMatches (user : User) (db : DB) (page limit : Nat)
    (statusFilter matchTypeFilter : Option String) :
    List TransactionMatchingResponse :=
  let q := db.matchings.filter (fun m => m.company_id == user.company_id)
  let q := match statusFilter with
    | some s => q.filter (fun m => m.match_status == s)
    | none => q
  let q := match matchTypeFilter with
    | some t => q.filter (fun m => m.match_type == t)
    | none => q
  (((sortByCreatedDesc q).drop ((page - 1) * limit)).take limit).map toResponse

/-- `get_exceptions` (matching.py lines 209-252). -/
def getExceptions (user : User) (db : DB) (page limit : Nat)
    (unresolvedOnly : Bool) : List TransactionMatchingResponse :=
  let q := db.matchings.filter
    (fun m => m.company_id == user.company_id && m.match_status == "exception")
  let q := if unresolvedOnly then q.filter (fun m => m.exception_resolved == false) else q
  (((sortByCreatedDesc q).drop ((page - 1) * limit)).take limit).map toResponse

/-- Replace the first list element satisfying `p` by its image under `f`
(the ORM mutation of the single row returned by `.first()`). -/
def updateFirst {α : Type} (p : α → Bool) (f : α → α) : List α → List α
  | [] => []
  | x :: xs => if p x then f x :: xs else x :: updateFirst p f xs

/-- The mutation performed by `resolve_exception` on the found row
(matching.py lines 276-281). -/
def resolveUpdate (note : String) (m : TransactionMatching) :
    TransactionMatching :=
  { m with
    exception_resolved := true
    match_status := "resolved"
    exception_reason :=
      match m.exception_reason with
      | some r => some (r ++ " | Resolved: " ++ note)
      | none => some ("Resolved: " ++ note) }

/-- `resolve_exception` (matching.py lines 254-307): the endpoint's outcome
and the `transaction_matching` table afterwards. -/
def resolveException (user : User) (db : DB) (matchId : UUIDStr)
    (note : String) :
    Except HttpErr TransactionMatchingResponse × List TransactionMatching :=
  match matchId with
  | none => (.error ⟨400, "Invalid match ID format"⟩, db.matchings)
  | some mid =>
      let pred := fun (m : TransactionMatching) =>
        m.id == mid && m.company_id == user.company_id
      match db.matchings.find? pred with
      | none => (.error ⟨404, "Match not found"⟩, db.matchings)
      | some m =>
          if m.match_status != "exception" then
            (.error ⟨400, "Only exceptions can be resolved"⟩, db.matchings)
          else
            (.ok (toResponse (resolveUpdate note m)),
              updateFirst pred (resolveUpdate note) db.matchings)

/-! ## Aging reports (backend/app/api/v1/endpoints/reports.py) -/

/-- `days_overdue = (report_date - due_date).days if due_date < report_date
else 0` (reports.py lines 44, 120). -/
def daysOverdueCalc (reportDate due : ℤ) : ℤ :=
  if due < reportDate then reportDate - due else 0

/-- The bucket label assigned by the `if/elif` chain
(reports.py lines 46-60 and 122-136). -/
def agingBucket (d : ℤ) : String :=
  if d ≤ 0 then "current"
  else if d ≤ 30 then "1-30"
  else if d ≤ 60 then "31-60"
  else if d ≤ 90 then "61-90"
  else "90+"

/-- The five bucket accumulators (`current`, `days_30`, `days_60`, `days_90`,
`days_90_plus`). -/
structure Buckets where
  current : ℚ
  days_30 : ℚ
  days_60 : ℚ
  days_90 : ℚ
  days_90_plus : ℚ
  deriving Repr, DecidableEq

/-- Adding one balance to the bucket selected by the same `if/elif` chain
that labels it. -/
def bucketAdd (b : Buckets) (d : ℤ) (amt : ℚ) : Buckets :=
  if d ≤ 0 then { b with current := b.current + amt }
  else if d ≤ 30 then { b with days_30 := b.days_30 + amt }
  else if d ≤ 60 then { b with days_60 := b.days_60 + amt }
  else if d ≤ 90 then { b with days_90 := b.days_90 + amt }
  else { b with days_90_plus := b.days_90_plus + amt }

/-- `current + days_30 + days_60 + days_90 + days_90_plus`
(reports.py lines 78, 155). -/
def bucketsTotal (b : Buckets) : ℚ :=
  b.current + b.days_30 + b.days_60 + b.days_90 + b.days_90_plus

/-- The `for` loop shared (verbatim, once over invoices and once over bills)
by the two aging endpoints, parameterized by the row projections: sums each
row's balance into a bucket and appends a detail entry. -/
def agingLoop {α δ : Type} (reportDate : ℤ) (due : α → ℤ) (bal : α → ℚ)
    (mkDetail : α → ℤ → String → δ) :
    List α → Buckets → List δ → Buckets × List δ
  | [], b, ds => (b, ds)
  | a :: rest, b, ds =>
      let d := daysOverdueCalc reportDate (due a)
      agingLoop reportDate due bal mkDetail rest
        (bucketAdd b d (bal a)) (ds ++ [mkDetail a d (agingBucket d)])

/-- One entry of the receivables report's `aging_details`
(reports.py lines 65-76). -/
structure ReceivableDetail where
  invoice_id : Nat
  invoice_number : String
  customer_id : Nat
  customer_name : String
  invoice_date : ℤ
  due_date : ℤ
  days_overdue : ℤ
  balance_amount : ℚ
  total_amount : ℚ
  aging_bucket : String
  deriving Repr, DecidableEq

/-- One entry of the payables report's `aging_details`
(reports.py lines 141-153). -/
structure PayableDetail where
  bill_id : Nat
  bill_number : String
  vendor_invoice_number : String
  supplier_id : Nat
  supplier_name : String
  bill_date : ℤ
  due_date : ℤ
  days_overdue : ℤ
  balance_amount : ℚ
  total_amount : ℚ
  aging_bucket : String
  deriving Repr, DecidableEq

/-- The `summary` object of either report. -/
structure AgingSummary where
  current : ℚ
  days_1_30 : ℚ
  days_31_60 : ℚ
  days_61_90 : ℚ
  days_90_plus : ℚ
  total : ℚ
  deriving Repr, DecidableEq

/-- `customer.name if customer else "Unknown"` (reports.py line 69). -/
def customerNameOf (db : DB) (cid : Nat) : String :=
  match db.customers.find? (fun c => c.id == cid) with
  | some c => c.name
  | none => "Unknown"

/-- `supplier.name if supplier else "Unknown"` (reports.py line 146). -/
def supplierNameOf (db : DB) (sid : Nat) : String :=
  match db.suppliers.find? (fun s => s.id == sid) with
  | some s => s.name
  | none => "Unknown"

def mkReceivableDetail (db : DB) (inv : Invoice) (d : ℤ) (bucket : String) :
    ReceivableDetail :=
  { invoice_id := inv.id
    invoice_number := inv.invoice_number
    customer_id := inv.customer_id
    customer_name := customerNameOf db inv.customer_id
    invoice_date := inv.invoice_date
    due_date := inv.due_date
    days_overdue := d
    balance_amount := inv.balance_amount
    total_amount := inv.total_amount
    aging_bucket := bucket }

def mkPayableDetail (db : DB) (bill : Bill) (d : ℤ) (bucket : String) :
    PayableDetail :=
  { bill_id := bill.id
    bill_number := bill.bill_number
    vendor_invoice_number := bill.vendor_invoice_number
    supplier_id := bill.supplier_id
    supplier_name := supplierNameOf db bill.supplier_id
    bill_date := bill.bill_date
    due_date := bill.due_date
    days_overdue := d
    balance_amount := bill.balance_amount
    total_amount := bill.total_amount
    aging_bucket := bucket }

/-- The unpaid-invoice filter of `get_aging_receivables`
(reports.py lines 27-32). -/
def unpaidInvoices (db : DB) (companyId : Nat) : List Invoice :=
  db.invoices.filter (fun i =>
    i.company_id == companyId &&
    ["sent", "viewed", "partial", "overdue"].contains i.status &&
    decide (0 < i.balance_amount) &&
    i.deleted_at == none)

/-- The unpaid-bill filter of `get_aging_payables`
(reports.py lines 104-108). -/
def unpaidBills (db : DB) (companyId : Nat) : List Bill :=
  db.bills.filter (fun b =>
    b.company_id == companyId &&
    ["draft", "pending", "approved", "partial"].contains b.status &&
    decide (0 < b.balance_amount))

/-- `get_aging_receivables` (reports.py lines 17-92): summary plus details. -/
def agingReceivables (user : User) (db : DB) (reportDate : ℤ) :
    AgingSummary × List ReceivableDetail :=
  let invs := unpaidInvoices db user.company_id
  let (b, details) :=
    agingLoop reportDate (fun i => i.due_date) (fun i => i.balance_amount)
      (mkReceivableDetail db) invs ⟨0, 0, 0, 0, 0⟩ []
  ({ current := b.current
     days_1_30 := b.days_30
     days_31_60 := b.days_60
     days_61_90 := b.days_90
     days_90_plus := b.days_90_plus
     total := bucketsTotal b }, details)

/-- `get_aging_payables` (reports.py lines 94-169): summary plus details. -/
def agingPayables (user : User) (db : DB) (reportDate : ℤ) :
    AgingSummary × List PayableDetail :=
  let bs := unpaidBills db user.company_id
  let (b, details) :=
    agingLoop reportDate (fun x => x.due_date) (fun x => x.balance_amount)
      (mkPayableDetail db) bs ⟨0, 0, 0, 0, 0⟩ []
  ({ current := b.current
     days_1_30 := b.days_30
     days_31_60 := b.days_60
     days_61_90 := b.days_90
     days_90_plus := b.days_90_plus
     total := bucketsTotal b }, details)

/-! ## Document pipeline (backend/app/services/document_service.py) -/

/-- `needle` is a leading segment of `hay`. -/
def leadsWith : List Char → List Char → Bool
  | [], _ => true
  | _ :: _, [] => false
  | c :: cs, d :: ds => c == d && leadsWith cs ds

/-- Python's substring test `needle in hay`. -/
def occursIn (needle : List Char) : List Char → Bool
  | [] => leadsWith needle []
  | c :: rest => leadsWith needle (c :: rest) || occursIn needle rest

/-- The dict returned by `_extract_text`: text, OCR confidence and (on the
successful branches) a page count. -/
structure OcrOut where
  text : String
  confidence : ℚ
  pages : Option Nat
  deriving Repr, DecidableEq

/-- The OCR environment of `DocumentService`: the three import flags and the
outcomes of the Tesseract / pdf2image library pipelines, which may raise
(`Except.error` carries `str(e)`). -/
structure OcrEnv where
  hasTesseract : Bool
  hasPil : Bool
  hasPdf2Image : Bool
  pdfOcr : String → Except String (String × ℚ × Nat)
  imageOcr : String → Except String (String × ℚ)

/-- `self.ocr_available = HAS_TESSERACT and HAS_PIL`
(document_service.py line 46). -/
def ocrAvailable (o : OcrEnv) : Bool :=
  o.hasTesseract && o.hasPil

def ocrNotAvailableText : String :=
  "[OCR not available: Please install pytesseract and Pillow. For now, document will be stored but text extraction is disabled.]"

def pdfNotAvailableText : String :=
  "[PDF processing not available: Please install pdf2image. For now, document will be stored but text extraction is disabled.]"

/-- `f"[OCR processing failed: {str(e)}. ..."` (document_service.py line
196). -/
def ocrFailedText (e : String) : String :=
  "[OCR processing failed: " ++ e ++ ". Document uploaded successfully but text extraction failed.]"

/-- The body of the `try` block of `_extract_text`
(document_service.py lines 129-190). -/
def extractTextImpl (o : OcrEnv) (filePath fileType : String) :
    Except String OcrOut :=
  if !o.hasTesseract || !o.hasPil then
    .ok ⟨ocrNotAvailableText, 0, none⟩
  else if fileType == "application/pdf" then
    if !o.hasPdf2Image then
      .ok ⟨pdfNotAvailableText, 0, none⟩
    else
      match o.pdfOcr filePath with
      | .error e => .error e
      | .ok (t, c, p) => .ok ⟨t, c, some p⟩
  else if leadsWith "image/".toList fileType.toList then
    match o.imageOcr filePath with
    | .error e => .error e
    | .ok (t, c) => .ok ⟨t, c, some 1⟩
  else
    .error ("Unsupported file type: " ++ fileType)

/-- `_extract_text` (document_service.py lines 127-198): the `try` body with
its `except` fallback; it never propagates an exception. -/
def extractText (o : OcrEnv) (filePath fileType : String) : OcrOut :=
  match extractTextImpl o filePath fileType with
  | .ok r => r
  | .error e => ⟨ocrFailedText e, 0, none⟩

/-- Keyword lists of `_classify_document`
(document_service.py lines 241-280), transcribed verbatim. -/
def invoiceKeywords : List String :=
  ["invoice", "bill", "payment due", "invoice number", "invoice #",
   "amount due", "total due", "billing address", "invoice date"]

def poKeywords : List String :=
  ["purchase order", "po number", "po #", "order number", "purchase order #",
   "vendor", "supplier", "delivery date", "shipping address"]

def doKeywords : List String :=
  ["delivery order", "delivery note", "do number", "do #", "delivery receipt",
   "received by", "delivered to", "delivery date"]

def quoteKeywords : List String :=
  ["quotation", "quote", "estimate", "quotation number", "quote #",
   "valid until", "quote date", "estimated cost"]

def receiptKeywords : List String :=
  ["receipt", "paid", "payment received", "receipt number", "receipt #",
   "thank you for your payment", "amount paid", "payment confirmation"]

def contractKeywords : List String :=
  ["contract", "agreement", "terms and conditions", "party a", "party b",
   "effective date", "signature", "witness"]

/-- Every keyword of every category. -/
def allClassifierKeywords : List String :=
  invoiceKeywords ++ poKeywords ++ doKeywords ++ quoteKeywords ++
    receiptKeywords ++ contractKeywords

/-- One keyword loop of `_classify_document`: `+= 2` for every keyword of the
category found in the lowercased text. -/
def keywordScore (ks : List String) (textLower : List Char) : Nat :=
  2 * ks.countP (fun k => occursIn k.toList textLower)

/-- The `scores` dict after the six keyword loops, in Python-dict insertion
order (document_service.py lines 230-280); `"general"` is never
incremented. -/
def baseScores (textLower : List Char) : List (String × Nat) :=
  [("invoice", keywordScore invoiceKeywords textLower),
   ("purchase_order", keywordScore poKeywords textLower),
   ("delivery_order", keywordScore doKeywords textLower),
   ("quotation", keywordScore quoteKeywords textLower),
   ("receipt", keywordScore receiptKeywords textLower),
   ("contract", keywordScore contractKeywords textLower),
   ("general", 0)]

/-- `max(scores.values())`: every score is a `Nat`, so folding `max` with
base `0` agrees with Python's `max` on this non-empty list (whose last value
is `0` anyway). -/
def maxScoreOf (l : List (String × Nat)) : Nat :=
  (l.map (fun p => p.2)).foldr Nat.max 0

/-- Python's `max(iterable, key=...)` keeps the *first* element attaining the
maximum: a later element replaces the best seen so far only when strictly
greater. -/
def pyMaxAux : List (String × Nat) → String × Nat → String × Nat
  | [], best => best
  | p :: rest, best => pyMaxAux rest (if best.2 < p.2 then p else best)

/-- `max(scores, key=scores.get)` on a non-empty scores list. -/
def pyMaxKey : List (String × Nat) → String
  | [] => "general"
  | p :: rest => (pyMaxAux rest p).1

/-- `scores[k] += n` (keys of the scores dict are distinct). -/
def bumpScore (k : String) (n : Nat) (l : List (String × Nat)) :
    List (String × Nat) :=
  l.map (fun p => if p.1 == k then (p.1, p.2 + n) else p)

/-- `k in scores`. -/
def scoreKeys (l : List (String × Nat)) : List String :=
  l.map (fun p => p.1)

/-- The dict returned by `MLService.classify_document` as read by
`_classify_document` (`type`, `confidence`, `method`). -/
structure MlOut where
  type : String
  confidence : ℚ
  method : String
  deriving Repr, DecidableEq

/-- The optional dict returned by `_ai_classify_document`. -/
structure AiOut where
  type : String
  confidence : ℚ
  deriving Repr, DecidableEq

/-- Environment of `_classify_document`: availability flags of the ML/AI
services and the outcomes of their calls (which may raise; both calls sit in
`try/except` blocks that swallow the error). -/
structure ClassifyEnv where
  mlAvailable : Bool
  aiAvailable : Bool
  mlClassify : String → Except String MlOut
  aiClassify : String → Except String (Option AiOut)

/-- The dict returned by `_classify_document`. -/
structure ClassifyOut where
  type : String
  confidence : ℚ
  scores : List (String × Nat)
  deriving Repr, DecidableEq

/-- `_classify_document` (document_service.py lines 224-328): keyword scoring
over the lowercased text, then the optional ML-model boost (`+= 10`, only for
texts longer than 50 characters), then the optional AI boost (`+= 5`, only
for texts longer than 100 characters). -/
def classifyDocument (env : ClassifyEnv) (text : String) : ClassifyOut :=
  let textLower := text.toList.map Char.toLower
  let textLength := text.length
  let scores := baseScores textLower
  let maxScore := maxScoreOf scores
  let docType := if 0 < maxScore then pyMaxKey scores else "general"
  let confidence := min (95 / 100 : ℚ) (max (3 / 10) ((maxScore : ℚ) / 10))
  let confidence := if textLength < 50 then confidence * (7 / 10) else confidence
  let (scores, docType, confidence) :=
    if env.mlAvailable && decide (50 < textLength) then
      match env.mlClassify text with
      | .ok r =>
          if r.method == "ml_model" then
            if (scoreKeys scores).contains r.type then
              let scores' := bumpScore r.type 10 scores
              (scores', pyMaxKey scores', max confidence r.confidence)
            else (scores, docType, confidence)
          else (scores, docType, confidence)
      | .error _ => (scores, docType, confidence)
    else (scores, docType, confidence)
  let (scores, docType, confidence) :=
    if env.aiAvailable && decide (100 < textLength) then
      match env.aiClassify text with
      | .ok (some a) =>
          if (scoreKeys scores).contains a.type then
            let scores' := bumpScore a.type 5 scores
            (scores', pyMaxKey scores', (confidence + a.confidence) / 2)
          else (scores, docType, confidence)
      | .ok none => (scores, docType, confidence)
      | .error _ => (scores, docType, confidence)
    else (scores, docType, confidence)
  ⟨docType, confidence, scores⟩

/-- The result dict of `MLService.classify_document`. -/
structure MlServiceOut where
  type : String
  confidence : ℚ
  method : String
  deriving Repr, DecidableEq

/-- `MLService.classify_document` (ml_service.py lines 37-93).
`modelLoaded` is whether `_load_document_classifier` produced both a model
and a vectorizer; `modelRun` abstracts vectorize/predict/predict_proba
(returning the predicted class and `max(probabilities)`); `asyncioOk` is
whether the synchronous re-entry into the rule-based
`document_service._classify_document` (via `asyncio.run`) succeeds; `env` is
that rule-based classifier's environment. -/
def mlServiceClassify (env : ClassifyEnv) (modelLoaded : Bool)
    (modelRun : String → Except String (String × ℚ)) (asyncioOk : Bool)
    (text : String) : MlServiceOut :=
  if !modelLoaded then
    if asyncioOk then
      let r := classifyDocument env text
      ⟨r.type, r.confidence, "rule_based"⟩
    else ⟨"general", 1 / 2, "rule_based_fallback"⟩
  else
    match modelRun text with
    | .ok (pred, conf) => ⟨pred, conf, "ml_model"⟩
    | .error _ => ⟨"general", 0, "error"⟩

/-- Round-half-even to an integer (the rounding of Python's built-in
`round`). -/
def roundHalfEven (x : ℚ) : ℤ :=
  let f := ⌊x⌋
  let frac := x - f
  if frac < 1 / 2 then f
  else if 1 / 2 < frac then f + 1
  else if f % 2 = 0 then f else f + 1

/-- Python's `round(x, 2)`. -/
def round2 (x : ℚ) : ℚ :=
  (roundHalfEven (x * 100) : ℚ) / 100

/-- The dict returned by `process_document`: the success shape
(lines 107-117) or the failure shape (lines 121-125).  `α` is the payload of
`_extract_data` (a dict of regex captures; its internals are opaque to every
claim, so it stays a type parameter). -/
inductive DocResult (α : Type) where
  | ok (document_type : String) (extracted_text : String)
      (extracted_data : α) (confidence : ℚ) (ocr_confidence : ℚ)
      (classification_confidence : ℚ) (ocr_available : Bool)
      (text_length : Nat)
  | failed (error : String) (ocr_available : Bool)
  deriving Repr, DecidableEq

/-- Environment of `process_document`: the OCR and classification
environments plus `_extract_data`, which may raise. -/
structure DocEnv (α : Type) where
  ocr : OcrEnv
  cls : ClassifyEnv
  extractData : String → String → Except String α

/-- The body of the `try` block of `process_document`
(document_service.py lines 88-117): extract text, classify that text,
extract structured data from the same text under the classified type, then
assemble the success dict. -/
def processBody {α : Type} (env : DocEnv α) (filePath fileType : String) :
    Except String (DocResult α) :=
  let ocrResult := extractText env.ocr filePath fileType
  let text := ocrResult.text
  let ocrConfidence := ocrResult.confidence
  let cls := classifyDocument env.cls text
  let docType := cls.type
  let clsConfidence := cls.confidence
  match env.extractData text docType with
  | .error e => .error e
  | .ok ed =>
      let overall := ocrConfidence * (6 / 10) + clsConfidence * (4 / 10)
      .ok (.ok docType text ed (round2 overall) (round2 ocrConfidence)
        (round2 clsConfidence) (ocrAvailable env.ocr) text.length)

/-- `process_document` (document_service.py lines 85-125): the `try` body
with its `except` fallback; every exception becomes the failure dict. -/
def processDocument {α : Type} (env : DocEnv α) (filePath fileType : String) :
    DocResult α :=
  match processBody env filePath fileType with
  | .ok r => r
  | .error e => .failed e (ocrAvailable env.ocr)

/-! ## Result accessors and concrete instances used by the verification -/

/-- Whether an endpoint outcome is a success (no `HTTPException` raised). -/
def exIsOk {ε α : Type} : Except ε α → Bool
  | .ok _ => true
  | .error _ => false

def docSuccess {α : Type} : DocResult α → Bool
  | .ok .. => true
  | .failed .. => false

def docType? {α : Type} : DocResult α → Option String
  | .ok t _ _ _ _ _ _ _ => some t
  | .failed .. => none

def docText? {α : Type} : DocResult α → Option String
  | .ok _ t _ _ _ _ _ _ => some t
  | .failed .. => none

def docData? {α : Type} : DocResult α → Option α
  | .ok _ _ d _ _ _ _ _ => some d
  | .failed .. => none

def docConfidence? {α : Type} : DocResult α → Option ℚ
  | .ok _ _ _ c _ _ _ _ => some c
  | .failed .. => none

def docOcrConfidence? {α : Type} : DocResult α → Option ℚ
  | .ok _ _ _ _ c _ _ _ => some c
  | .failed .. => none

def docClsConfidence? {α : Type} : DocResult α → Option ℚ
  | .ok _ _ _ _ _ c _ _ => some c
  | .failed .. => none

def docTextLength? {α : Type} : DocResult α → Option Nat
  | .ok _ _ _ _ _ _ _ n => some n
  | .failed .. => none

def docError? {α : Type} : DocResult α → Option String
  | .ok .. => none
  | .failed e _ => some e

/-- Concrete rows and requests used to instantiate the theorems below. -/
def user1 : User := ⟨5, 1⟩

def po10 : PurchaseOrder := ⟨10, 1, 100⟩

/-- A bill for 100.005: within one cent of `po10` but not equal to it. -/
def bill20 : Bill := ⟨20, 1, 3, "B-1", "V-1", 0, 10, 20001 / 200, 20001 / 200, "pending"⟩

/-- A bill with exactly the amount of `po10`. -/
def bill21 : Bill := ⟨21, 1, 3, "B-2", "V-2", 0, 10, 100, 100, "pending"⟩

def inv30 : Invoice := ⟨30, 1, 4, "INV-1", 0, 3, 100, 100, "draft", none⟩

def db1 : DB := ⟨[po10], [inv30], [bill20, bill21], [], [], []⟩

def reqZeroTol : TransactionMatchingCreate :=
  { purchase_order_id := some (some 10), bill_id := some (some 20),
    match_type := "two_way", tolerance_threshold := some 0 }

def reqPoBill : TransactionMatchingCreate :=
  { purchase_order_id := some (some 10), bill_id := some (some 21),
    match_type := "two_way" }

def reqPoInv : TransactionMatchingCreate :=
  { purchase_order_id := some (some 10), invoice_id := some (some 30),
    match_type := "two_way" }

def reqThreeA : TransactionMatchingCreate :=
  { purchase_order_id := some (some 10), delivery_order_id := some (some 77),
    bill_id := some (some 20), match_type := "three_way" }

def reqThreeB : TransactionMatchingCreate :=
  { purchase_order_id := some (some 10), delivery_order_id := some (some 88),
    bill_id := some (some 20), match_type := "three_way" }

def reqBadDelivery : TransactionMatchingCreate :=
  { purchase_order_id := some (some 10), delivery_order_id := some none,
    match_type := "two_way" }

def reqOneRef : TransactionMatchingCreate :=
  { purchase_order_id := some (some 10), match_type := "two_way" }

def reqThreeShort : TransactionMatchingCreate :=
  { purchase_order_id := some (some 10), bill_id := some (some 20),
    match_type := "three_way" }

def reqBadPo : TransactionMatchingCreate :=
  { purchase_order_id := some none, bill_id := some (some 20),
    match_type := "two_way" }

def reqBadInv : TransactionMatchingCreate :=
  { purchase_order_id := some (some 10), invoice_id := some none,
    match_type := "two_way" }

def reqBadBill : TransactionMatchingCreate :=
  { purchase_order_id := some (some 10), bill_id := some none,
    match_type := "two_way" }

/-- Company-1 matching rows in various states, and company-2/3 rows used to
exercise tenant noninterference. -/
def mrow1 : TransactionMatching :=
  { id := 201, company_id := 1, purchase_order_id := some 10,
    delivery_order_id := none, invoice_id := none, bill_id := some 20,
    match_type := "two_way", match_status := "exception",
    match_confidence_score := 1 / 2, amount_variance := some 5,
    quantity_variance := none, date_variance := none,
    tolerance_threshold := 1 / 100, within_tolerance := some false,
    exception_reason := some "Amount variance: 5", exception_resolved := false,
    matched_at := none, matched_by := none, created_at := 3, updated_at := 3 }

def mrow2 : TransactionMatching :=
  { mrow1 with
    id := 202
    match_status := "matched"
    exception_reason := none
    created_at := 4 }

def mrow3 : TransactionMatching :=
  { mrow1 with
    id := 203
    company_id := 2
    created_at := 5 }

def mrow4 : TransactionMatching :=
  { mrow1 with
    id := 204
    company_id := 3
    created_at := 1 }

def db5a : DB := { db1 with matchings := [mrow1, mrow3, mrow2] }

def db5b : DB := { db1 with matchings := [mrow1, mrow2, mrow4] }

/-- OCR environment whose library pipelines always raise. -/
def ocrBoom : OcrEnv :=
  ⟨true, true, true, fun _ => .error "pdf boom", fun _ => .error "img boom"⟩

/-- OCR environment without pytesseract. -/
def ocrNoTesseract : OcrEnv :=
  ⟨false, true, true, fun _ => .error "pdf boom", fun _ => .error "img boom"⟩

/-- OCR environment with working libraries. -/
def ocrFine : OcrEnv :=
  ⟨true, true, true, fun _ => .ok ("PDF TEXT", 9 / 10, 2),
    fun _ => .ok ("invoice number 7", 4 / 5)⟩

/-- OCR environment with Tesseract and PIL but no pdf2image. -/
def ocrNoPdf : OcrEnv :=
  ⟨true, true, false, fun _ => .error "pdf boom", fun _ => .error "img boom"⟩

/-- Classification environment with neither ML nor AI available. -/
def clsPlain : ClassifyEnv :=
  ⟨false, false, fun _ => .error "no ml", fun _ => .error "no ai"⟩

def docEnvOk : DocEnv Nat := ⟨ocrFine, clsPlain, fun _ _ => .ok 0⟩

def docEnvFail : DocEnv Nat := ⟨ocrFine, clsPlain, fun _ _ => .error "boom"⟩

/-! ## Theorems -/

/-- C1 (amended: Python's `or` also replaces a *zero* `tolerance_threshold`
by the `Decimal("0.01")` default, since `Decimal("0")` is falsy): in
`create_match`, when a purchase order and a bill (or, with no bill, a
purchase order and an invoice) are referenced and validation passes, the
matching decision is a single tolerance-threshold comparison:
`amount_variance` is the absolute difference of the two `total_amount`
values, `within_tolerance` holds exactly when that variance is at most the
tolerance (the request's `tolerance_threshold` when provided and nonzero,
`Decimal("0.01")` when omitted or zero), and the stored `match_status` is
`"matched"` with confidence `0.95` within tolerance and `"exception"` with
confidence `0.50` otherwise. -/
theorem create_match_tolerance_rule (user : User) (db : DB)
    (m : TransactionMatchingCreate) (newId : Nat) (now : ℤ)
    (hc : 2 ≤ countProvided m)
    (ht : m.match_type = "three_way" → 3 ≤ countProvided m) :
    toleranceOr none = 1 / 100 ∧
    (∀ t : ℚ, toleranceOr (some t) = if t = 0 then 1 / 100 else t) ∧
    (∀ (p : PurchaseOrder) (io : Option Invoice) (b : Bill),
      resolveRef m.purchase_order_id (findPO db user.company_id)
        "Invalid purchase order ID format" "Purchase order not found" =
          .ok (some p) →
      resolveRef m.invoice_id (findInvoice db user.company_id)
        "Invalid invoice ID format" "Invoice not found" = .ok io →
      resolveRef m.bill_id (findBill db user.company_id)
        "Invalid bill ID format" "Bill not found" = .ok (some b) →
      createMatch user db m newId now =
        (.ok (buildMatch user m newId now (some p) io (some b)),
          db.matchings ++ [buildMatch user m newId now (some p) io (some b)]) ∧
      (buildMatch user m newId now (some p) io (some b)).amount_variance =
        some |p.total_amount - b.total_amount| ∧
      ((buildMatch user m newId now (some p) io (some b)).within_tolerance =
          some true ↔
        |p.total_amount - b.total_amount| ≤ toleranceOr m.tolerance_threshold) ∧
      (buildMatch user m newId now (some p) io (some b)).match_status =
        (if |p.total_amount - b.total_amount| ≤ toleranceOr m.tolerance_threshold
          then "matched" else "exception") ∧
      (buildMatch user m newId now (some p) io (some b)).match_confidence_score =
        (if |p.total_amount - b.total_amount| ≤ toleranceOr m.tolerance_threshold
          then (95 / 100 : ℚ) else 1 / 2)) ∧
    (∀ (p : PurchaseOrder) (i : Invoice),
      resolveRef m.purchase_order_id (findPO db user.company_id)
        "Invalid purchase order ID format" "Purchase order not found" =
          .ok (some p) →
      resolveRef m.invoice_id (findInvoice db user.company_id)
        "Invalid invoice ID format" "Invoice not found" = .ok (some i) →
      resolveRef m.bill_id (findBill db user.company_id)
        "Invalid bill ID format" "Bill not found" = .ok none →
      createMatch user db m newId now =
        (.ok (buildMatch user m newId now (some p) (some i) none),
          db.matchings ++ [buildMatch user m newId now (some p) (some i) none]) ∧
      (buildMatch user m newId now (some p) (some i) none).amount_variance =
        some |p.total_amount - i.total_amount| ∧
      ((buildMatch user m newId now (some p) (some i) none).within_tolerance =
          some true ↔
        |p.total_amount - i.total_amount| ≤ toleranceOr m.tolerance_threshold) ∧
      (buildMatch user m newId now (some p) (some i) none).match_status =
        (if |p.total_amount - i.total_amount| ≤ toleranceOr m.tolerance_threshold
          then "matched" else "exception") ∧
      (buildMatch user m newId now (some p) (some i) none).match_confidence_score =
        (if |p.total_amount - i.total_amount| ≤ toleranceOr m.tolerance_threshold
          then (95 / 100 : ℚ) else 1 / 2)) := by
  have hguard :
      ¬ ((m.match_type == "three_way" && decide (countProvided m < 3)) = true) := by
    simp only [Bool.and_eq_true, beq_iff_eq, decide_eq_true_eq, not_and]
    intro h1 h2
    exact absurd (ht h1) (by omega)
  refine ⟨rfl, fun t => rfl, ?_, ?_⟩
  · intro p io b hpo hinv hbill
    have hcm : createMatchE user db m newId now =
        .ok (buildMatch user m newId now (some p) io (some b)) := by
      unfold createMatchE
      rw [if_neg (by omega), if_neg hguard, hpo, hinv, hbill]
    refine ⟨by unfold createMatch; rw [hcm], ?_, ?_, ?_, ?_⟩
    · rfl
    · show some (decide (|p.total_amount - b.total_amount| ≤
        toleranceOr m.tolerance_threshold)) = some true ↔ _
      simp [decide_eq_true_eq]
    · by_cases hX : |p.total_amount - b.total_amount| ≤
        toleranceOr m.tolerance_threshold
      · show (if decide _ = true then "matched" else "exception") = _
        simp [hX]
      · show (if decide _ = true then "matched" else "exception") = _
        simp [hX]
    · by_cases hX : |p.total_amount - b.total_amount| ≤
        toleranceOr m.tolerance_threshold
      · show (if decide _ = true then (95 / 100 : ℚ) else 1 / 2) = _
        simp [hX]
      · show (if decide _ = true then (95 / 100 : ℚ) else 1 / 2) = _
        simp [hX]
  · intro p i hpo hinv hbill
    have hcm : createMatchE user db m newId now =
        .ok (buildMatch user m newId now (some p) (some i) none) := by
      unfold createMatchE
      rw [if_neg (by omega), if_neg hguard, hpo, hinv, hbill]
    refine ⟨by unfold createMatch; rw [hcm], ?_, ?_, ?_, ?_⟩
    · rfl
    · show some (decide (|p.total_amount - i.total_amount| ≤
        toleranceOr m.tolerance_threshold)) = some true ↔ _
      simp [decide_eq_true_eq]
    · by_cases hX : |p.total_amount - i.total_amount| ≤
        toleranceOr m.tolerance_threshold
      · show (if decide _ = true then "matched" else "exception") = _
        simp [hX]
      · show (if decide _ = true then "matched" else "exception") = _
        simp [hX]
    · by_cases hX : |p.total_amount - i.total_amount| ≤
        toleranceOr m.tolerance_threshold
      · show (if decide _ = true then (95 / 100 : ℚ) else 1 / 2) = _
        simp [hX]
      · show (if decide _ = true then (95 / 100 : ℚ) else 1 / 2) = _
        simp [hX]

/-- C1 witness: the tolerance rule applied to a concrete PO-bill match and a
concrete PO-invoice match in company 1. -/
theorem create_match_tolerance_rule_witness :
    (createMatch user1 db1 reqPoBill 99 7 =
      (.ok (buildMatch user1 reqPoBill 99 7 (some po10) none (some bill21)),
        db1.matchings ++
          [buildMatch user1 reqPoBill 99 7 (some po10) none (some bill21)]) ∧
     (buildMatch user1 reqPoBill 99 7 (some po10) none (some bill21)).amount_variance =
       some |po10.total_amount - bill21.total_amount| ∧
     ((buildMatch user1 reqPoBill 99 7 (some po10) none (some bill21)).within_tolerance =
         some true ↔
       |po10.total_amount - bill21.total_amount| ≤
         toleranceOr reqPoBill.tolerance_threshold) ∧
     (buildMatch user1 reqPoBill 99 7 (some po10) none (some bill21)).match_status =
       (if |po10.total_amount - bill21.total_amount| ≤
           toleranceOr reqPoBill.tolerance_threshold
         then "matched" else "exception") ∧
     (buildMatch user1 reqPoBill 99 7 (some po10) none (some bill21)).match_confidence_score =
       (if |po10.total_amount - bill21.total_amount| ≤
           toleranceOr reqPoBill.tolerance_threshold
         then (95 / 100 : ℚ) else 1 / 2)) ∧
    (createMatch user1 db1 reqPoInv 99 7 =
      (.ok (buildMatch user1 reqPoInv 99 7 (some po10) (some inv30) none),
        db1.matchings ++
          [buildMatch user1 reqPoInv 99 7 (some po10) (some inv30) none]) ∧
     (buildMatch user1 reqPoInv 99 7 (some po10) (some inv30) none).amount_variance =
       some |po10.total_amount - inv30.total_amount| ∧
     ((buildMatch user1 reqPoInv 99 7 (some po10) (some inv30) none).within_tolerance =
         some true ↔
       |po10.total_amount - inv30.total_amount| ≤
         toleranceOr reqPoInv.tolerance_threshold) ∧
     (buildMatch user1 reqPoInv 99 7 (some po10) (some inv30) none).match_status =
       (if |po10.total_amount - inv30.total_amount| ≤
           toleranceOr reqPoInv.tolerance_threshold
         then "matched" else "exception") ∧
     (buildMatch user1 reqPoInv 99 7 (some po10) (some inv30) none).match_confidence_score =
       (if |po10.total_amount - inv30.total_amount| ≤
           toleranceOr reqPoInv.tolerance_threshold
         then (95 / 100 : ℚ) else 1 / 2)) := by
  constructor
  · exact (create_match_tolerance_rule user1 db1 reqPoBill 99 7 (by decide)
      (by decide)).2.2.1 po10 none bill21 rfl rfl rfl
  · exact (create_match_tolerance_rule user1 db1 reqPoInv 99 7 (by decide)
      (by decide)).2.2.2 po10 inv30 rfl rfl rfl

/-- C1 counterexample: the claim reads the tolerance as "the request's
`tolerance_threshold`, or `Decimal("0.01")` when omitted".  With a *zero*
threshold explicitly supplied and totals `100` and `100.005`, the claim
predicts `match_status = "exception"` (variance `0.005 > 0`), but Python's
`or` discards the falsy `Decimal("0")` and uses `0.01`, so the code stores
`"matched"` with `within_tolerance = True`. -/
theorem create_match_zero_tolerance_counterexample :
    reqZeroTol.tolerance_threshold = some 0 ∧
    createMatchE user1 db1 reqZeroTol 99 7 =
      .ok (buildMatch user1 reqZeroTol 99 7 (some po10) none (some bill20)) ∧
    (buildMatch user1 reqZeroTol 99 7 (some po10) none (some bill20)).amount_variance =
      some (1 / 200) ∧
    ¬ ((1 : ℚ) / 200 ≤ 0) ∧
    (buildMatch user1 reqZeroTol 99 7 (some po10) none (some bill20)).match_status =
      "matched" ∧
    (buildMatch user1 reqZeroTol 99 7 (some po10) none (some bill20)).within_tolerance =
      some true ∧
    (buildMatch user1 reqZeroTol 99 7 (some po10) none (some bill20)).match_confidence_score =
      95 / 100 := by
  have hsub : po10.total_amount - bill20.total_amount = -(1 / 200 : ℚ) := by
    norm_num [po10, bill20]
  have habs : |po10.total_amount - bill20.total_amount| = (1 / 200 : ℚ) := by
    rw [hsub, abs_neg, abs_of_nonneg (by norm_num : (0 : ℚ) ≤ 1 / 200)]
  have htol : toleranceOr reqZeroTol.tolerance_threshold = 1 / 100 := by
    show toleranceOr (some 0) = 1 / 100
    simp [toleranceOr]
  have hle : |po10.total_amount - bill20.total_amount| ≤
      toleranceOr reqZeroTol.tolerance_threshold := by
    rw [habs, htol]; norm_num
  have hdec : decide (|po10.total_amount - bill20.total_amount| ≤
      toleranceOr reqZeroTol.tolerance_threshold) = true := decide_eq_true hle
  refine ⟨rfl, rfl, ?_, by norm_num, ?_, ?_, ?_⟩
  · show some |po10.total_amount - bill20.total_amount| = some (1 / 200)
    rw [habs]
  · show (if decide (|po10.total_amount - bill20.total_amount| ≤
        toleranceOr reqZeroTol.tolerance_threshold) = true
      then "matched" else "exception") = "matched"
    rw [hdec]
    rfl
  · show some (decide (|po10.total_amount - bill20.total_amount| ≤
        toleranceOr reqZeroTol.tolerance_threshold)) = some true
    rw [hdec]
  · show (if decide (|po10.total_amount - bill20.total_amount| ≤
        toleranceOr reqZeroTol.tolerance_threshold) = true
      then (95 / 100 : ℚ) else 1 / 2) = 95 / 100
    rw [hdec]
    rfl

/-- The row built by `create_match` never carries a `delivery_order_id`. -/
theorem buildMatch_delivery_none (user : User) (m : TransactionMatchingCreate)
    (newId : Nat) (now : ℤ) (po : Option PurchaseOrder) (inv : Option Invoice)
    (bill : Option Bill) :
    (buildMatch user m newId now po inv bill).delivery_order_id = none := by
  unfold buildMatch
  rcases hmd : matchDecision po inv bill m.tolerance_threshold with ⟨av, wt, st, cs⟩
  rfl

/-- C2 (amended): `match_type = "three_way"` only strengthens the
reference-count requirement; the matching never reconciles a
delivery-order/receipt amount.  `create_match`'s entire outcome is invariant
under any change of `delivery_order_id` that preserves its presence, and the
created row never stores a `delivery_order_id` (the endpoint has no
delivery-order table to read an amount from — `amount_variance`,
`within_tolerance` and `match_status` come from at most two totals:
PO vs bill, else PO vs invoice). -/
theorem create_match_delivery_inert (user : User) (db : DB)
    (m : TransactionMatchingCreate) (newId : Nat) (now : ℤ)
    (d d' : Option UUIDStr) (h : d.isSome = d'.isSome) :
    createMatch user db { m with delivery_order_id := d } newId now =
      createMatch user db { m with delivery_order_id := d' } newId now ∧
    (∀ r, (createMatch user db m newId now).1 = .ok r →
      r.delivery_order_id = none) := by
  constructor
  · have hcount : countProvided { m with delivery_order_id := d } =
        countProvided { m with delivery_order_id := d' } := by
      simp [countProvided, h]
    simp [createMatch, createMatchE, buildMatch, hcount]
  · intro r hr
    unfold createMatch at hr
    cases hE : createMatchE user db m newId now with
    | ok v =>
        rw [hE] at hr
        simp only [Except.ok.injEq] at hr
        subst hr
        unfold createMatchE at hE
        split at hE
        · exact Except.noConfusion hE
        · split at hE
          · exact Except.noConfusion hE
          · split at hE
            · exact Except.noConfusion hE
            · split at hE
              · exact Except.noConfusion hE
              · split at hE
                · exact Except.noConfusion hE
                · injection hE with hv
                  rw [← hv, buildMatch_delivery_none]
    | error e =>
        rw [hE] at hr
        exact Except.noConfusion hr

/-- C2 witness: delivery-order independence applied to concrete three-way
requests, and the created row of a concrete three-way match stores no
`delivery_order_id`. -/
theorem create_match_delivery_inert_witness :
    createMatch user1 db1 { reqThreeA with delivery_order_id := some (some 3) } 99 7 =
      createMatch user1 db1 { reqThreeA with delivery_order_id := some (some 4) } 99 7 ∧
    (buildMatch user1 reqThreeA 99 7 (some po10) none (some bill20)).delivery_order_id =
      none := by
  refine ⟨(create_match_delivery_inert user1 db1 reqThreeA 99 7
    (some (some 3)) (some (some 4)) rfl).1, ?_⟩
  exact (create_match_delivery_inert user1 db1 reqThreeA 99 7
    (some (some 3)) (some (some 4)) rfl).2
    (buildMatch user1 reqThreeA 99 7 (some po10) none (some bill20)) rfl

/-- C2 counterexample: two concrete `three_way` requests over the same
database, identical except for which delivery order they reference, produce
identical matches — the receipt/delivery amount does not participate in
`amount_variance`, `within_tolerance` or `match_status`. -/
theorem three_way_delivery_counterexample :
    reqThreeA.match_type = "three_way" ∧
    reqThreeA.delivery_order_id = some (some 77) ∧
    reqThreeB.delivery_order_id = some (some 88) ∧
    reqThreeA.purchase_order_id = reqThreeB.purchase_order_id ∧
    reqThreeA.invoice_id = reqThreeB.invoice_id ∧
    reqThreeA.bill_id = reqThreeB.bill_id ∧
    reqThreeA.tolerance_threshold = reqThreeB.tolerance_threshold ∧
    reqThreeA.match_type = reqThreeB.match_type ∧
    createMatch user1 db1 reqThreeA 99 7 = createMatch user1 db1 reqThreeB 99 7 := by
  refine ⟨rfl, rfl, rfl, rfl, rfl, rfl, rfl, rfl, ?_⟩
  rfl

/-- C8 (amended: only a provided purchase-order, invoice or bill id is
UUID-validated — `create_match` never parses `delivery_order_id`):
`create_match` validates its references before any matching.  Fewer than two
provided references is a 400; `three_way` with fewer than three is a 400; a
provided but unparsable purchase-order/invoice/bill id is a 400; a parsable
one whose row is not in the user's company is a 404, each reference check
failing in request order; and whenever an error is raised, no
`TransactionMatching` row is created. -/
theorem create_match_validation (user : User) (db : DB)
    (m : TransactionMatchingCreate) (newId : Nat) (now : ℤ) :
    (∀ e, (createMatch user db m newId now).1 = .error e →
      (createMatch user db m newId now).2 = db.matchings) ∧
    (countProvided m < 2 →
      (createMatch user db m newId now).1 =
        .error ⟨400, "At least two references (PO, DO, Invoice, Bill) are required for matching"⟩) ∧
    (2 ≤ countProvided m → m.match_type = "three_way" → countProvided m < 3 →
      (createMatch user db m newId now).1 =
        .error ⟨400, "Three-way matching requires at least three references"⟩) ∧
    (∀ (α : Type) (find : Nat → Option α) (bm nm : String),
      resolveRef (some none) find bm nm = .error ⟨400, bm⟩) ∧
    (∀ (α : Type) (find : Nat → Option α) (uid : Nat) (bm nm : String),
      find uid = none →
      resolveRef (some (some uid)) find bm nm = .error ⟨404, nm⟩) ∧
    (∀ e, 2 ≤ countProvided m →
      (m.match_type = "three_way" → 3 ≤ countProvided m) →
      resolveRef m.purchase_order_id (findPO db user.company_id)
        "Invalid purchase order ID format" "Purchase order not found" = .error e →
      (createMatch user db m newId now).1 = .error e) ∧
    (∀ e (po_ : Option PurchaseOrder), 2 ≤ countProvided m →
      (m.match_type = "three_way" → 3 ≤ countProvided m) →
      resolveRef m.purchase_order_id (findPO db user.company_id)
        "Invalid purchase order ID format" "Purchase order not found" = .ok po_ →
      resolveRef m.invoice_id (findInvoice db user.company_id)
        "Invalid invoice ID format" "Invoice not found" = .error e →
      (createMatch user db m newId now).1 = .error e) ∧
    (∀ e (po_ : Option PurchaseOrder) (io : Option Invoice),
      2 ≤ countProvided m →
      (m.match_type = "three_way" → 3 ≤ countProvided m) →
      resolveRef m.purchase_order_id (findPO db user.company_id)
        "Invalid purchase order ID format" "Purchase order not found" = .ok po_ →
      resolveRef m.invoice_id (findInvoice db user.company_id)
        "Invalid invoice ID format" "Invoice not found" = .ok io →
      resolveRef m.bill_id (findBill db user.company_id)
        "Invalid bill ID format" "Bill not found" = .error e →
      (createMatch user db m newId now).1 = .error e) := by
  refine ⟨?_, ?_, ?_, ?_, ?_, ?_, ?_, ?_⟩
  · intro e he
    unfold createMatch at he ⊢
    cases hE : createMatchE user db m newId now with
    | ok v => rw [hE] at he; exact Except.noConfusion he
    | error e' => rfl
  · intro h
    have hE : createMatchE user db m newId now =
        .error ⟨400, "At least two references (PO, DO, Invoice, Bill) are required for matching"⟩ := by
      unfold createMatchE
      rw [if_pos h]
    unfold createMatch
    rw [hE]
  · intro h2 hmt h3
    have hb : (m.match_type == "three_way" && decide (countProvided m < 3)) = true := by
      simp only [Bool.and_eq_true, beq_iff_eq, decide_eq_true_eq]
      exact ⟨hmt, h3⟩
    have hE : createMatchE user db m newId now =
        .error ⟨400, "Three-way matching requires at least three references"⟩ := by
      unfold createMatchE
      rw [if_neg (by omega), if_pos hb]
    unfold createMatch
    rw [hE]
  · intro α find bm nm
    rfl
  · intro α find uid bm nm hfind
    simp [resolveRef, hfind]
  · intro e h2 ht hpo
    have hguard :
        ¬ ((m.match_type == "three_way" && decide (countProvided m < 3)) = true) := by
      simp only [Bool.and_eq_true, beq_iff_eq, decide_eq_true_eq, not_and]
      intro h1 h3
      exact absurd (ht h1) (by omega)
    have hE : createMatchE user db m newId now = .error e := by
      unfold createMatchE
      rw [if_neg (by omega), if_neg hguard, hpo]
    unfold createMatch
    rw [hE]
  · intro e po_ h2 ht hpo hinv
    have hguard :
        ¬ ((m.match_type == "three_way" && decide (countProvided m < 3)) = true) := by
      simp only [Bool.and_eq_true, beq_iff_eq, decide_eq_true_eq, not_and]
      intro h1 h3
      exact absurd (ht h1) (by omega)
    have hE : createMatchE user db m newId now = .error e := by
      unfold createMatchE
      rw [if_neg (by omega), if_neg hguard, hpo, hinv]
    unfold createMatch
    rw [hE]
  · intro e po_ io h2 ht hpo hinv hbill
    have hguard :
        ¬ ((m.match_type == "three_way" && decide (countProvided m < 3)) = true) := by
      simp only [Bool.and_eq_true, beq_iff_eq, decide_eq_true_eq, not_and]
      intro h1 h3
      exact absurd (ht h1) (by omega)
    have hE : createMatchE user db m newId now = .error e := by
      unfold createMatchE
      rw [if_neg (by omega), if_neg hguard, hpo, hinv, hbill]
    unfold createMatch
    rw [hE]

/-- C8 witness: each validation failure exercised on concrete requests
against company 1's database. -/
theorem create_match_validation_witness :
    (createMatch user1 db1 reqOneRef 99 7).2 = db1.matchings ∧
    (createMatch user1 db1 reqOneRef 99 7).1 =
      .error ⟨400, "At least two references (PO, DO, Invoice, Bill) are required for matching"⟩ ∧
    (createMatch user1 db1 reqThreeShort 99 7).1 =
      .error ⟨400, "Three-way matching requires at least three references"⟩ ∧
    resolveRef (some none) (findPO db1 1) "Invalid purchase order ID format"
      "Purchase order not found" = .error ⟨400, "Invalid purchase order ID format"⟩ ∧
    resolveRef (some (some 999)) (findPO db1 1) "Invalid purchase order ID format"
      "Purchase order not found" = .error ⟨404, "Purchase order not found"⟩ ∧
    (createMatch user1 db1 reqBadPo 99 7).1 =
      .error ⟨400, "Invalid purchase order ID format"⟩ ∧
    (createMatch user1 db1 reqBadInv 99 7).1 =
      .error ⟨400, "Invalid invoice ID format"⟩ ∧
    (createMatch user1 db1 reqBadBill 99 7).1 =
      .error ⟨400, "Invalid bill ID format"⟩ := by
  refine ⟨?_, ?_, ?_, ?_, ?_, ?_, ?_, ?_⟩
  · exact (create_match_validation user1 db1 reqOneRef 99 7).1
      ⟨400, "At least two references (PO, DO, Invoice, Bill) are required for matching"⟩ rfl
  · exact (create_match_validation user1 db1 reqOneRef 99 7).2.1 (by decide)
  · exact (create_match_validation user1 db1 reqThreeShort 99 7).2.2.1
      (by decide) rfl (by decide)
  · exact (create_match_validation user1 db1 reqOneRef 99 7).2.2.2.1
      PurchaseOrder (findPO db1 1) "Invalid purchase order ID format"
      "Purchase order not found"
  · exact (create_match_validation user1 db1 reqOneRef 99 7).2.2.2.2.1
      PurchaseOrder (findPO db1 1) 999 "Invalid purchase order ID format"
      "Purchase order not found" rfl
  · exact (create_match_validation user1 db1 reqBadPo 99 7).2.2.2.2.2.1
      ⟨400, "Invalid purchase order ID format"⟩ (by decide) (by decide) rfl
  · exact (create_match_validation user1 db1 reqBadInv 99 7).2.2.2.2.2.2.1
      ⟨400, "Invalid invoice ID format"⟩ (some po10) (by decide) (by decide) rfl rfl
  · exact (create_match_validation user1 db1 reqBadBill 99 7).2.2.2.2.2.2.2
      ⟨400, "Invalid bill ID format"⟩ (some po10) none (by decide) (by decide)
      rfl rfl rfl

/-- C8 counterexample: a provided `delivery_order_id` that is *not* a valid
UUID raises no 400 — `create_match` never parses it.  With a valid purchase
order and a garbage delivery-order id (two provided references), the match
is created and committed. -/
theorem create_match_delivery_uuid_counterexample :
    reqBadDelivery.delivery_order_id = some none ∧
    exIsOk (createMatch user1 db1 reqBadDelivery 99 7).1 = true ∧
    (createMatch user1 db1 reqBadDelivery 99 7).2 =
      db1.matchings ++ [buildMatch user1 reqBadDelivery 99 7 (some po10) none none] := by
  exact ⟨rfl, rfl, rfl⟩

/-- C7: `resolve_exception` enforces a status-transition guard.  For a
parseable match id: no row with that id in the user's company is a 404 and a
found row whose `match_status` is not `"exception"` is a 400, the table
unchanged in both cases; when the guard passes, the row gets
`exception_resolved = True`, `match_status = "resolved"` and the resolution
note appended to `exception_reason`, every other column unchanged. -/
theorem resolve_exception_status_guard (user : User) (db : DB) (mid : Nat)
    (note : String) :
    (db.matchings.find?
        (fun m => m.id == mid && m.company_id == user.company_id) = none →
      resolveException user db (some mid) note =
        (.error ⟨404, "Match not found"⟩, db.matchings)) ∧
    (∀ m, db.matchings.find?
        (fun m => m.id == mid && m.company_id == user.company_id) = some m →
      m.match_status ≠ "exception" →
      resolveException user db (some mid) note =
        (.error ⟨400, "Only exceptions can be resolved"⟩, db.matchings)) ∧
    (∀ m, db.matchings.find?
        (fun m => m.id == mid && m.company_id == user.company_id) = some m →
      m.match_status = "exception" →
      resolveException user db (some mid) note =
        (.ok (toResponse (resolveUpdate note m)),
          updateFirst (fun x => x.id == mid && x.company_id == user.company_id)
            (resolveUpdate note) db.matchings) ∧
      (resolveUpdate note m).exception_resolved = true ∧
      (resolveUpdate note m).match_status = "resolved" ∧
      (resolveUpdate note m).exception_reason =
        (match m.exception_reason with
          | some r => some (r ++ " | Resolved: " ++ note)
          | none => some ("Resolved: " ++ note)) ∧
      (resolveUpdate note m).id = m.id ∧
      (resolveUpdate note m).company_id = m.company_id ∧
      (resolveUpdate note m).purchase_order_id = m.purchase_order_id ∧
      (resolveUpdate note m).delivery_order_id = m.delivery_order_id ∧
      (resolveUpdate note m).invoice_id = m.invoice_id ∧
      (resolveUpdate note m).bill_id = m.bill_id ∧
      (resolveUpdate note m).match_type = m.match_type ∧
      (resolveUpdate note m).match_confidence_score = m.match_confidence_score ∧
      (resolveUpdate note m).amount_variance = m.amount_variance ∧
      (resolveUpdate note m).quantity_variance = m.quantity_variance ∧
      (resolveUpdate note m).date_variance = m.date_variance ∧
      (resolveUpdate note m).tolerance_threshold = m.tolerance_threshold ∧
      (resolveUpdate note m).within_tolerance = m.within_tolerance ∧
      (resolveUpdate note m).matched_at = m.matched_at ∧
      (resolveUpdate note m).matched_by = m.matched_by ∧
      (resolveUpdate note m).created_at = m.created_at) := by
  refine ⟨?_, ?_, ?_⟩
  · intro h
    simp [resolveException, h]
  · intro m hm hne
    simp [resolveException, hm, hne]
  · intro m hm he
    refine ⟨?_, rfl, rfl, rfl, rfl, rfl, rfl, rfl, rfl, rfl, rfl, rfl, rfl,
      rfl, rfl, rfl, rfl, rfl, rfl, rfl⟩
    simp [resolveException, hm, he]

/-- C7 witness: the guard on a concrete table holding an exception row
(id 201), a matched row (id 202) and an id (999) with no row. -/
theorem resolve_exception_status_guard_witness :
    resolveException user1 db5a (some 999) "note" =
      (.error ⟨404, "Match not found"⟩, db5a.matchings) ∧
    resolveException user1 db5a (some 202) "note" =
      (.error ⟨400, "Only exceptions can be resolved"⟩, db5a.matchings) ∧
    resolveException user1 db5a (some 201) "fixed" =
      (.ok (toResponse (resolveUpdate "fixed" mrow1)),
        updateFirst (fun x => x.id == 201 && x.company_id == user1.company_id)
          (resolveUpdate "fixed") db5a.matchings) ∧
    (resolveUpdate "fixed" mrow1).exception_resolved = true := by
  refine ⟨?_, ?_, ?_, ?_⟩
  · exact (resolve_exception_status_guard user1 db5a 999 "note").1 rfl
  · exact (resolve_exception_status_guard user1 db5a 202 "note").2.1 mrow2 rfl
      (by decide)
  · exact ((resolve_exception_status_guard user1 db5a 201 "fixed").2.2 mrow1
      rfl rfl).1
  · exact ((resolve_exception_status_guard user1 db5a 201 "fixed").2.2 mrow1
      rfl rfl).2.1

/-- Filtering on company and status together is filtering on company first. -/
theorem filter_company_exception (l : List TransactionMatching) (cid : Nat) :
    l.filter (fun m => m.company_id == cid && m.match_status == "exception") =
      (l.filter (fun m => m.company_id == cid)).filter
        (fun m => m.match_status == "exception") := by
  induction l with
  | nil => rfl
  | cons x xs ih =>
      by_cases hc : (x.company_id == cid) = true <;>
        by_cases hs : (x.match_status == "exception") = true <;>
          simp [List.filter_cons, hc, hs, ih]

/-- The first row matching id and company is the first id-match among the
company's rows. -/
theorem find_company (l : List TransactionMatching) (mid cid : Nat) :
    l.find? (fun m => m.id == mid && m.company_id == cid) =
      (l.filter (fun m => m.company_id == cid)).find? (fun m => m.id == mid) := by
  induction l with
  | nil => rfl
  | cons x xs ih =>
      by_cases hc : (x.company_id == cid) = true <;>
        by_cases hi : (x.id == mid) = true <;>
          simp [List.find?_cons, List.filter_cons, hc, hi, ih]

/-- Updating the first row matching id and company commutes with restricting
to the company's rows (the update keeps `company_id`). -/
theorem updateFirst_filter_company (l : List TransactionMatching)
    (mid cid : Nat) (note : String) :
    (updateFirst (fun m => m.id == mid && m.company_id == cid)
        (resolveUpdate note) l).filter (fun m => m.company_id == cid) =
      updateFirst (fun m => m.id == mid) (resolveUpdate note)
        (l.filter (fun m => m.company_id == cid)) := by
  induction l with
  | nil => rfl
  | cons x xs ih =>
      have hkeep : (resolveUpdate note x).company_id = x.company_id := rfl
      by_cases hc : (x.company_id == cid) = true <;>
        by_cases hi : (x.id == mid) = true <;>
          simp [updateFirst, List.filter_cons, hc, hi, ih, hkeep]

/-- C5: `list_matches`, `get_exceptions` and `resolve_exception` are scoped
by the user's `company_id`: whenever two database states agree on the
company's matching rows, every one of these endpoints returns the same
response on both, and `resolve_exception` leaves the company's rows in the
same state on both — rows of other tenants may be added, removed or changed
arbitrarily without interfering. -/
theorem matching_endpoints_tenant_noninterference (user : User)
    (dbA dbB : DB) (page limit : Nat) (sf mf : Option String) (unres : Bool)
    (matchId : UUIDStr) (note : String)
    (h : dbA.matchings.filter (fun m => m.company_id == user.company_id) =
      dbB.matchings.filter (fun m => m.company_id == user.company_id)) :
    listMatches user dbA page limit sf mf =
      listMatches user dbB page limit sf mf ∧
    getExceptions user dbA page limit unres =
      getExceptions user dbB page limit unres ∧
    (resolveException user dbA matchId note).1 =
      (resolveException user dbB matchId note).1 ∧
    (resolveException user dbA matchId note).2.filter
        (fun m => m.company_id == user.company_id) =
      (resolveException user dbB matchId note).2.filter
        (fun m => m.company_id == user.company_id) := by
  have hres : (resolveException user dbA matchId note).1 =
        (resolveException user dbB matchId note).1 ∧
      (resolveException user dbA matchId note).2.filter
          (fun m => m.company_id == user.company_id) =
        (resolveException user dbB matchId note).2.filter
          (fun m => m.company_id == user.company_id) := by
    cases matchId with
    | none => exact ⟨rfl, h⟩
    | some mid =>
        have hfind : dbA.matchings.find?
              (fun m => m.id == mid && m.company_id == user.company_id) =
            dbB.matchings.find?
              (fun m => m.id == mid && m.company_id == user.company_id) := by
          rw [find_company, find_company, h]
        cases hB : dbB.matchings.find?
            (fun m => m.id == mid && m.company_id == user.company_id) with
        | none =>
            have hA := hfind.trans hB
            constructor
            · simp [resolveException, hA, hB]
            · simp [resolveException, hA, hB, h]
        | some m =>
            have hA := hfind.trans hB
            by_cases hs : (m.match_status != "exception") = true
            · constructor
              · simp [resolveException, hA, hB, hs]
              · simp [resolveException, hA, hB, hs, h]
            · constructor
              · simp [resolveException, hA, hB, hs]
              · simp [resolveException, hA, hB, hs]
                rw [updateFirst_filter_company, updateFirst_filter_company, h]
  refine ⟨?_, ?_, hres.1, hres.2⟩
  · simp only [listMatches]
    rw [h]
  · simp only [getExceptions]
    rw [filter_company_exception, filter_company_exception, h]

/-- C5 witness: two concrete databases agreeing on company 1's rows but
holding different company-2/3 rows get identical responses from all three
endpoints. -/
theorem matching_endpoints_tenant_noninterference_witness :
    listMatches user1 db5a 1 50 none none = listMatches user1 db5b 1 50 none none ∧
    getExceptions user1 db5a 1 50 true = getExceptions user1 db5b 1 50 true ∧
    (resolveException user1 db5a (some 201) "n").1 =
      (resolveException user1 db5b (some 201) "n").1 ∧
    (resolveException user1 db5a (some 201) "n").2.filter
        (fun m => m.company_id == user1.company_id) =
      (resolveException user1 db5b (some 201) "n").2.filter
        (fun m => m.company_id == user1.company_id) :=
  matching_endpoints_tenant_noninterference user1 db5a db5b 1 50 none none
    true (some 201) "n" rfl

/-- Adding one amount to its bucket raises the grand total by it. -/
theorem bucketAdd_total (b : Buckets) (d : ℤ) (amt : ℚ) :
    bucketsTotal (bucketAdd b d amt) = bucketsTotal b + amt := by
  unfold bucketAdd bucketsTotal
  split_ifs <;> simp <;> ring

/-- The report loop's buckets sum to the balances it has consumed. -/
theorem agingLoop_fst {α δ : Type} (rd : ℤ) (due : α → ℤ) (bal : α → ℚ)
    (mk : α → ℤ → String → δ) (l : List α) :
    ∀ (b : Buckets) (ds : List δ),
      bucketsTotal (agingLoop rd due bal mk l b ds).1 =
        bucketsTotal b + (l.map bal).sum := by
  induction l with
  | nil => intro b ds; simp [agingLoop]
  | cons a rest ih =>
      intro b ds
      simp only [agingLoop, List.map_cons, List.sum_cons]
      rw [ih, bucketAdd_total]
      ring

/-- The report loop's detail list is one entry per row, in order. -/
theorem agingLoop_snd {α δ : Type} (rd : ℤ) (due : α → ℤ) (bal : α → ℚ)
    (mk : α → ℤ → String → δ) (l : List α) :
    ∀ (b : Buckets) (ds : List δ),
      (agingLoop rd due bal mk l b ds).2 =
        ds ++ l.map (fun a =>
          mk a (daysOverdueCalc rd (due a))
            (agingBucket (daysOverdueCalc rd (due a)))) := by
  induction l with
  | nil => intro b ds; simp [agingLoop]
  | cons a rest ih =>
      intro b ds
      simp [agingLoop, ih]

/-- The five bucket labels partition the days-overdue line. -/
theorem agingBucket_spec (d : ℤ) :
    (agingBucket d = "current" ↔ d ≤ 0) ∧
    (agingBucket d = "1-30" ↔ 0 < d ∧ d ≤ 30) ∧
    (agingBucket d = "31-60" ↔ 30 < d ∧ d ≤ 60) ∧
    (agingBucket d = "61-90" ↔ 60 < d ∧ d ≤ 90) ∧
    (agingBucket d = "90+" ↔ 90 < d) := by
  unfold agingBucket
  split_ifs with h1 h2 h3 h4 <;>
    refine ⟨?_, ?_, ?_, ?_, ?_⟩ <;> simp_all <;> omega

/-- C6: both aging reports bucket overdue amounts by days-past-due.  Each
report's details hold one entry per unpaid invoice/bill, whose
`days_overdue` is `report_date - due_date` when the due date is past and `0`
otherwise and whose `aging_bucket` label is determined by that value, the
five labels partitioning the days-overdue line (`current` iff
`days_overdue ≤ 0`, `1-30`, `31-60`, `61-90`, `90+`); the summary total is
the sum of the five bucket totals, which is the sum of the included
`balance_amount` values (equivalently, of the details' balances). -/
theorem aging_reports_bucketing (user : User) (db : DB) (reportDate : ℤ) :
    (agingReceivables user db reportDate).2 =
      (unpaidInvoices db user.company_id).map (fun i =>
        mkReceivableDetail db i (daysOverdueCalc reportDate i.due_date)
          (agingBucket (daysOverdueCalc reportDate i.due_date))) ∧
    (agingReceivables user db reportDate).1.total =
      (agingReceivables user db reportDate).1.current +
        (agingReceivables user db reportDate).1.days_1_30 +
        (agingReceivables user db reportDate).1.days_31_60 +
        (agingReceivables user db reportDate).1.days_61_90 +
        (agingReceivables user db reportDate).1.days_90_plus ∧
    (agingReceivables user db reportDate).1.total =
      ((unpaidInvoices db user.company_id).map (fun i => i.balance_amount)).sum ∧
    (agingReceivables user db reportDate).1.total =
      ((agingReceivables user db reportDate).2.map
        (fun dt => dt.balance_amount)).sum ∧
    (∀ (i : Invoice) (d : ℤ) (bk : String),
      (mkReceivableDetail db i d bk).days_overdue = d ∧
      (mkReceivableDetail db i d bk).aging_bucket = bk ∧
      (mkReceivableDetail db i d bk).due_date = i.due_date ∧
      (mkReceivableDetail db i d bk).balance_amount = i.balance_amount) ∧
    (agingPayables user db reportDate).2 =
      (unpaidBills db user.company_id).map (fun x =>
        mkPayableDetail db x (daysOverdueCalc reportDate x.due_date)
          (agingBucket (daysOverdueCalc reportDate x.due_date))) ∧
    (agingPayables user db reportDate).1.total =
      (agingPayables user db reportDate).1.current +
        (agingPayables user db reportDate).1.days_1_30 +
        (agingPayables user db reportDate).1.days_31_60 +
        (agingPayables user db reportDate).1.days_61_90 +
        (agingPayables user db reportDate).1.days_90_plus ∧
    (agingPayables user db reportDate).1.total =
      ((unpaidBills db user.company_id).map (fun x => x.balance_amount)).sum ∧
    (agingPayables user db reportDate).1.total =
      ((agingPayables user db reportDate).2.map
        (fun dt => dt.balance_amount)).sum ∧
    (∀ (x : Bill) (d : ℤ) (bk : String),
      (mkPayableDetail db x d bk).days_overdue = d ∧
      (mkPayableDetail db x d bk).aging_bucket = bk ∧
      (mkPayableDetail db x d bk).due_date = x.due_date ∧
      (mkPayableDetail db x d bk).balance_amount = x.balance_amount) ∧
    (∀ rdate due : ℤ,
      daysOverdueCalc rdate due = if due < rdate then rdate - due else 0) ∧
    (∀ d : ℤ,
      (agingBucket d = "current" ↔ d ≤ 0) ∧
      (agingBucket d = "1-30" ↔ 0 < d ∧ d ≤ 30) ∧
      (agingBucket d = "31-60" ↔ 30 < d ∧ d ≤ 60) ∧
      (agingBucket d = "61-90" ↔ 60 < d ∧ d ≤ 90) ∧
      (agingBucket d = "90+" ↔ 90 < d)) := by
  rcases hR : agingLoop reportDate (fun i => i.due_date)
      (fun i => i.balance_amount) (mkReceivableDetail db)
      (unpaidInvoices db user.company_id) ⟨0, 0, 0, 0, 0⟩ [] with ⟨bR, dsR⟩
  rcases hP : agingLoop reportDate (fun x => x.due_date)
      (fun x => x.balance_amount) (mkPayableDetail db)
      (unpaidBills db user.company_id) ⟨0, 0, 0, 0, 0⟩ [] with ⟨bP, dsP⟩
  have h1R : (agingReceivables user db reportDate).1 =
      ⟨bR.current, bR.days_30, bR.days_60, bR.days_90, bR.days_90_plus,
        bucketsTotal bR⟩ := by
    simp [agingReceivables, hR]
  have h2R : (agingReceivables user db reportDate).2 = dsR := by
    simp [agingReceivables, hR]
  have h1P : (agingPayables user db reportDate).1 =
      ⟨bP.current, bP.days_30, bP.days_60, bP.days_90, bP.days_90_plus,
        bucketsTotal bP⟩ := by
    simp [agingPayables, hP]
  have h2P : (agingPayables user db reportDate).2 = dsP := by
    simp [agingPayables, hP]
  have hdsR : dsR = (unpaidInvoices db user.company_id).map (fun i =>
      mkReceivableDetail db i (daysOverdueCalc reportDate i.due_date)
        (agingBucket (daysOverdueCalc reportDate i.due_date))) := by
    have := agingLoop_snd reportDate (fun i => i.due_date)
      (fun i => i.balance_amount) (mkReceivableDetail db)
      (unpaidInvoices db user.company_id) ⟨0, 0, 0, 0, 0⟩ []
    rw [hR] at this
    simpa using this
  have hdsP : dsP = (unpaidBills db user.company_id).map (fun x =>
      mkPayableDetail db x (daysOverdueCalc reportDate x.due_date)
        (agingBucket (daysOverdueCalc reportDate x.due_date))) := by
    have := agingLoop_snd reportDate (fun x => x.due_date)
      (fun x => x.balance_amount) (mkPayableDetail db)
      (unpaidBills db user.company_id) ⟨0, 0, 0, 0, 0⟩ []
    rw [hP] at this
    simpa using this
  have hsumR : bucketsTotal bR =
      ((unpaidInvoices db user.company_id).map (fun i => i.balance_amount)).sum := by
    have := agingLoop_fst reportDate (fun i => i.due_date)
      (fun i => i.balance_amount) (mkReceivableDetail db)
      (unpaidInvoices db user.company_id) ⟨0, 0, 0, 0, 0⟩ []
    rw [hR] at this
    simpa [bucketsTotal] using this
  have hsumP : bucketsTotal bP =
      ((unpaidBills db user.company_id).map (fun x => x.balance_amount)).sum := by
    have := agingLoop_fst reportDate (fun x => x.due_date)
      (fun x => x.balance_amount) (mkPayableDetail db)
      (unpaidBills db user.company_id) ⟨0, 0, 0, 0, 0⟩ []
    rw [hP] at this
    simpa [bucketsTotal] using this
  refine ⟨by rw [h2R, hdsR], by rw [h1R]; rfl, by rw [h1R]; exact hsumR, ?_,
    fun i d bk => ⟨rfl, rfl, rfl, rfl⟩,
    by rw [h2P, hdsP], by rw [h1P]; rfl, by rw [h1P]; exact hsumP, ?_,
    fun x d bk => ⟨rfl, rfl, rfl, rfl⟩,
    fun rdate due => rfl, fun d => agingBucket_spec d⟩
  · rw [h1R, h2R, hdsR, List.map_map]
    exact hsumR
  · rw [h1P, h2P, hdsP, List.map_map]
    exact hsumP

/-- C3: `process_document` is a linear three-stage pipeline.  On a
successful run its record is assembled exactly from the three stage
outputs, each stage applied once: the text comes from `_extract_text`, the
type from `_classify_document` applied to that text, and the structured
data from `_extract_data` applied to the same text and that type — no stage
is re-run and no earlier output is modified. -/
theorem process_document_three_stage_pipeline {α : Type} (env : DocEnv α)
    (fp ft : String) (ed : α)
    (h : env.extractData (extractText env.ocr fp ft).text
        (classifyDocument env.cls (extractText env.ocr fp ft).text).type =
      .ok ed) :
    processDocument env fp ft = .ok
      (classifyDocument env.cls (extractText env.ocr fp ft).text).type
      (extractText env.ocr fp ft).text
      ed
      (round2 ((extractText env.ocr fp ft).confidence * (6 / 10) +
        (classifyDocument env.cls (extractText env.ocr fp ft).text).confidence *
          (4 / 10)))
      (round2 (extractText env.ocr fp ft).confidence)
      (round2 (classifyDocument env.cls (extractText env.ocr fp ft).text).confidence)
      (ocrAvailable env.ocr)
      (extractText env.ocr fp ft).text.length := by
  simp only [processDocument, processBody, h]

/-- C3 witness: the pipeline on a concrete image upload whose data-extraction
stage succeeds. -/
theorem process_document_three_stage_pipeline_witness :
    processDocument docEnvOk "f.png" "image/png" = .ok
      (classifyDocument docEnvOk.cls (extractText docEnvOk.ocr "f.png" "image/png").text).type
      (extractText docEnvOk.ocr "f.png" "image/png").text
      0
      (round2 ((extractText docEnvOk.ocr "f.png" "image/png").confidence * (6 / 10) +
        (classifyDocument docEnvOk.cls
          (extractText docEnvOk.ocr "f.png" "image/png").text).confidence * (4 / 10)))
      (round2 (extractText docEnvOk.ocr "f.png" "image/png").confidence)
      (round2 (classifyDocument docEnvOk.cls
        (extractText docEnvOk.ocr "f.png" "image/png").text).confidence)
      (ocrAvailable docEnvOk.ocr)
      (extractText docEnvOk.ocr "f.png" "image/png").text.length :=
  process_document_three_stage_pipeline docEnvOk "f.png" "image/png" 0 rfl

/-- C9: on success, `process_document` reports the fixed weighted average
`round(ocr_confidence * 0.6 + classification_confidence * 0.4, 2)` as its
overall confidence, the two stage confidences rounded to two decimals,
`text_length` equal to the length of the extracted text, and
`success = True`. -/
theorem process_document_confidence_formula {α : Type} (env : DocEnv α)
    (fp ft : String) (ed : α)
    (h : env.extractData (extractText env.ocr fp ft).text
        (classifyDocument env.cls (extractText env.ocr fp ft).text).type =
      .ok ed) :
    docSuccess (processDocument env fp ft) = true ∧
    docConfidence? (processDocument env fp ft) =
      some (round2 ((extractText env.ocr fp ft).confidence * (6 / 10) +
        (classifyDocument env.cls (extractText env.ocr fp ft).text).confidence *
          (4 / 10))) ∧
    docOcrConfidence? (processDocument env fp ft) =
      some (round2 (extractText env.ocr fp ft).confidence) ∧
    docClsConfidence? (processDocument env fp ft) =
      some (round2
        (classifyDocument env.cls (extractText env.ocr fp ft).text).confidence) ∧
    docTextLength? (processDocument env fp ft) =
      (docText? (processDocument env fp ft)).map String.length := by
  refine ⟨?_, ?_, ?_, ?_, ?_⟩ <;>
    simp only [processDocument, processBody, h, docSuccess, docConfidence?,
      docOcrConfidence?, docClsConfidence?, docTextLength?, docText?,
      Option.map_some']

/-- C9 witness: the confidence formula on a concrete successful run. -/
theorem process_document_confidence_formula_witness :
    docSuccess (processDocument docEnvOk "g.png" "image/png") = true ∧
    docConfidence? (processDocument docEnvOk "g.png" "image/png") =
      some (round2 ((extractText docEnvOk.ocr "g.png" "image/png").confidence * (6 / 10) +
        (classifyDocument docEnvOk.cls
          (extractText docEnvOk.ocr "g.png" "image/png").text).confidence * (4 / 10))) ∧
    docOcrConfidence? (processDocument docEnvOk "g.png" "image/png") =
      some (round2 (extractText docEnvOk.ocr "g.png" "image/png").confidence) ∧
    docClsConfidence? (processDocument docEnvOk "g.png" "image/png") =
      some (round2 (classifyDocument docEnvOk.cls
        (extractText docEnvOk.ocr "g.png" "image/png").text).confidence) ∧
    docTextLength? (processDocument docEnvOk "g.png" "image/png") =
      (docText? (processDocument docEnvOk "g.png" "image/png")).map String.length :=
  process_document_confidence_formula docEnvOk "g.png" "image/png" 0 rfl

/-- C4: the pipeline's failure handling degrades instead of aborting.
`_extract_text` maps missing OCR libraries and any raised extraction error
to a placeholder text with confidence `0.0`; `process_document` maps any
internal exception to a `success = False` record carrying the error
message; and `MLService.classify_document` without a loadable model falls
back to the rule-based classifier, and to `("general", 0.5)` when even that
re-entry fails. -/
theorem pipeline_degrading_error_handling :
    (∀ (o : OcrEnv) (fp ft : String),
      o.hasTesseract = false ∨ o.hasPil = false →
      extractText o fp ft = ⟨ocrNotAvailableText, 0, none⟩) ∧
    (∀ (o : OcrEnv) (fp : String),
      o.hasTesseract = true → o.hasPil = true → o.hasPdf2Image = false →
      extractText o fp "application/pdf" = ⟨pdfNotAvailableText, 0, none⟩) ∧
    (∀ (o : OcrEnv) (fp ft e : String),
      extractTextImpl o fp ft = .error e →
      extractText o fp ft = ⟨ocrFailedText e, 0, none⟩) ∧
    (∀ (α : Type) (env : DocEnv α) (fp ft e : String),
      processBody env fp ft = .error e →
      processDocument env fp ft = .failed e (ocrAvailable env.ocr)) ∧
    (∀ (env : ClassifyEnv) (mr : String → Except String (String × ℚ))
      (text : String),
      mlServiceClassify env false mr true text =
        ⟨(classifyDocument env text).type,
          (classifyDocument env text).confidence, "rule_based"⟩) ∧
    (∀ (env : ClassifyEnv) (mr : String → Except String (String × ℚ))
      (text : String),
      mlServiceClassify env false mr false text =
        ⟨"general", 1 / 2, "rule_based_fallback"⟩) := by
  refine ⟨?_, ?_, ?_, ?_, ?_, ?_⟩
  · intro o fp ft h
    rcases h with h | h <;> simp [extractText, extractTextImpl, h]
  · intro o fp h1 h2 h3
    simp [extractText, extractTextImpl, h1, h2, h3]
  · intro o fp ft e h
    unfold extractText
    rw [h]
  · intro α env fp ft e h
    unfold processDocument
    rw [h]
  · intro env mr text
    rfl
  · intro env mr text
    rfl

/-- C4 witness: each degradation exercised concretely — no pytesseract, no
pdf2image, an unsupported file type, a raising `_extract_data`, and the ML
service without a trained model. -/
theorem pipeline_degrading_error_handling_witness :
    extractText ocrNoTesseract "f" "application/pdf" =
      ⟨ocrNotAvailableText, 0, none⟩ ∧
    extractText ocrNoPdf "f" "application/pdf" =
      ⟨pdfNotAvailableText, 0, none⟩ ∧
    extractText ocrFine "f" "text/plain" =
      ⟨ocrFailedText "Unsupported file type: text/plain", 0, none⟩ ∧
    processDocument docEnvFail "f.png" "image/png" =
      .failed "boom" (ocrAvailable docEnvFail.ocr) ∧
    mlServiceClassify clsPlain false (fun _ => .error "no model") true "hi" =
      ⟨(classifyDocument clsPlain "hi").type,
        (classifyDocument clsPlain "hi").confidence, "rule_based"⟩ ∧
    mlServiceClassify clsPlain false (fun _ => .error "no model") false "hi" =
      ⟨"general", 1 / 2, "rule_based_fallback"⟩ := by
  refine ⟨?_, ?_, ?_, ?_, ?_, ?_⟩
  · exact pipeline_degrading_error_handling.1 ocrNoTesseract "f"
      "application/pdf" (Or.inl rfl)
  · exact pipeline_degrading_error_handling.2.1 ocrNoPdf "f" rfl rfl rfl
  · exact pipeline_degrading_error_handling.2.2.1 ocrFine "f" "text/plain"
      "Unsupported file type: text/plain" rfl
  · exact pipeline_degrading_error_handling.2.2.2.1 Nat docEnvFail "f.png"
      "image/png" "boom" rfl
  · exact pipeline_degrading_error_handling.2.2.2.2.1 clsPlain
      (fun _ => .error "no model") "hi"
  · exact pipeline_degrading_error_handling.2.2.2.2.2 clsPlain
      (fun _ => .error "no model") "hi"

/-- The running best of Python's `max(..., key=...)` never decreases. -/
theorem pyMaxAux_ge_init (l : List (String × Nat)) :
    ∀ b : String × Nat, b.2 ≤ (pyMaxAux l b).2 := by
  induction l with
  | nil => intro b; exact le_refl _
  | cons p rest ih =>
      intro b
      unfold pyMaxAux
      by_cases hb : b.2 < p.2
      · rw [if_pos hb]
        exact le_trans (le_of_lt hb) (ih p)
      · rw [if_neg hb]
        exact ih b

/-- The result of the scan dominates every scanned element. -/
theorem pyMaxAux_ge_mem (l : List (String × Nat)) :
    ∀ (b p : String × Nat), p ∈ l → p.2 ≤ (pyMaxAux l b).2 := by
  induction l with
  | nil =>
      intro b p hp
      simp at hp
  | cons q rest ih =>
      intro b p hp
      unfold pyMaxAux
      rcases List.mem_cons.mp hp with rfl | hp'
      · refine le_trans ?_ (pyMaxAux_ge_init rest _)
        by_cases hb : b.2 < p.2
        · rw [if_pos hb]
        · rw [if_neg hb]
          exact Nat.not_lt.mp hb
      · exact ih _ p hp'

/-- The scan returns its seed or one of the scanned elements. -/
theorem pyMaxAux_mem_or (l : List (String × Nat)) :
    ∀ b : String × Nat, pyMaxAux l b = b ∨ pyMaxAux l b ∈ l := by
  induction l with
  | nil => intro b; exact Or.inl rfl
  | cons q rest ih =>
      intro b
      unfold pyMaxAux
      rcases ih (if b.2 < q.2 then q else b) with h | h
      · rw [h]
        by_cases hb : b.2 < q.2
        · rw [if_pos hb]
          exact Or.inr (List.mem_cons_self _ _)
        · rw [if_neg hb]
          exact Or.inl rfl
      · exact Or.inr (List.mem_cons_of_mem _ h)

/-- `max(scores.values())` is below any bound on the individual scores. -/
theorem maxScoreOf_le (l : List (String × Nat)) (v : Nat)
    (h : ∀ p ∈ l, p.2 ≤ v) : maxScoreOf l ≤ v := by
  induction l with
  | nil => exact Nat.zero_le v
  | cons p rest ih =>
      simp only [maxScoreOf, List.map_cons, List.foldr_cons]
      exact Nat.max_le.mpr
        ⟨h p (List.mem_cons_self _ _),
          ih (fun q hq => h q (List.mem_cons_of_mem _ hq))⟩

/-- `max(scores.values()) = 0` exactly when every score is `0`. -/
theorem maxScoreOf_eq_zero (l : List (String × Nat)) :
    maxScoreOf l = 0 ↔ ∀ p ∈ l, p.2 = 0 := by
  induction l with
  | nil => simp [maxScoreOf]
  | cons p rest ih =>
      simp only [maxScoreOf, List.map_cons, List.foldr_cons] at ih ⊢
      rw [Nat.max_eq_zero_iff, ih]
      simp

/-- A score list member bounds `max(scores.values())` from below. -/
theorem le_maxScoreOf (l : List (String × Nat)) (p : String × Nat)
    (hp : p ∈ l) : p.2 ≤ maxScoreOf l := by
  induction l with
  | nil => simp at hp
  | cons q rest ih =>
      simp only [maxScoreOf, List.map_cons, List.foldr_cons]
      rcases List.mem_cons.mp hp with rfl | hp'
      · exact Nat.le_max_left _ _
      · exact le_trans (ih hp') (Nat.le_max_right _ _)

/-- A category score is zero exactly when none of its keywords occurs. -/
theorem keywordScore_eq_zero (ks : List String) (tl : List Char) :
    keywordScore ks tl = 0 ↔ ∀ k ∈ ks, occursIn k.toList tl = false := by
  unfold keywordScore
  rw [Nat.mul_eq_zero]
  simp only [OfNat.ofNat_ne_zero, false_or]
  rw [List.countP_eq_zero]
  constructor
  · intro h k hk
    have := h k hk
    simpa using this
  · intro h k hk
    simp only [h k hk]
    exact Bool.false_ne_true

/-- `max(scores, key=scores.get)` cannot return `"general"` (whose score is
always `0`) when some category scored. -/
theorem pyMaxKey_scores_ne_general (s1 s2 s3 s4 s5 s6 : Nat)
    (h : 0 < maxScoreOf [("invoice", s1), ("purchase_order", s2),
      ("delivery_order", s3), ("quotation", s4), ("receipt", s5),
      ("contract", s6), ("general", 0)]) :
    pyMaxKey [("invoice", s1), ("purchase_order", s2), ("delivery_order", s3),
      ("quotation", s4), ("receipt", s5), ("contract", s6), ("general", 0)] ≠
      "general" := by
  intro hg0
  have hg : (pyMaxAux [("purchase_order", s2), ("delivery_order", s3),
      ("quotation", s4), ("receipt", s5), ("contract", s6), ("general", 0)]
      ("invoice", s1)).1 = "general" := hg0
  have hmax : maxScoreOf [("invoice", s1), ("purchase_order", s2),
      ("delivery_order", s3), ("quotation", s4), ("receipt", s5),
      ("contract", s6), ("general", 0)] ≤
      (pyMaxAux [("purchase_order", s2), ("delivery_order", s3),
        ("quotation", s4), ("receipt", s5), ("contract", s6), ("general", 0)]
        ("invoice", s1)).2 := by
    apply maxScoreOf_le
    intro p hp
    rcases List.mem_cons.mp hp with rfl | hp'
    · exact pyMaxAux_ge_init _ _
    · exact pyMaxAux_ge_mem _ _ p hp'
  rcases pyMaxAux_mem_or [("purchase_order", s2), ("delivery_order", s3),
      ("quotation", s4), ("receipt", s5), ("contract", s6), ("general", 0)]
      ("invoice", s1) with he | hm
  · rw [he] at hg
    simp at hg
  · simp only [List.mem_cons, List.mem_singleton, List.not_mem_nil,
      or_false] at hm
    rcases hm with hm | hm | hm | hm | hm | hm <;> rw [hm] at hg hmax
    · simp at hg
    · simp at hg
    · simp at hg
    · simp at hg
    · simp at hg
    · simp only [] at hmax
      omega

/-- The keyword scores all vanish exactly when no keyword of any category
occurs in the (lowercased) text. -/
theorem baseScores_zero_iff (tl : List Char) :
    maxScoreOf (baseScores tl) = 0 ↔
      ∀ k ∈ allClassifierKeywords, occursIn k.toList tl = false := by
  rw [maxScoreOf_eq_zero]
  constructor
  · intro h k hk
    simp only [allClassifierKeywords, List.mem_append] at hk
    rcases hk with ((((hk | hk) | hk) | hk) | hk) | hk
    · exact (keywordScore_eq_zero invoiceKeywords tl).mp
        (h ("invoice", keywordScore invoiceKeywords tl) (by simp [baseScores])) k hk
    · exact (keywordScore_eq_zero poKeywords tl).mp
        (h ("purchase_order", keywordScore poKeywords tl) (by simp [baseScores])) k hk
    · exact (keywordScore_eq_zero doKeywords tl).mp
        (h ("delivery_order", keywordScore doKeywords tl) (by simp [baseScores])) k hk
    · exact (keywordScore_eq_zero quoteKeywords tl).mp
        (h ("quotation", keywordScore quoteKeywords tl) (by simp [baseScores])) k hk
    · exact (keywordScore_eq_zero receiptKeywords tl).mp
        (h ("receipt", keywordScore receiptKeywords tl) (by simp [baseScores])) k hk
    · exact (keywordScore_eq_zero contractKeywords tl).mp
        (h ("contract", keywordScore contractKeywords tl) (by simp [baseScores])) k hk
  · intro h p hp
    have hz : ∀ ks : List String,
        (∀ k ∈ ks, k ∈ allClassifierKeywords) → keywordScore ks tl = 0 := by
      intro ks hks
      exact (keywordScore_eq_zero ks tl).mpr (fun k hk => h k (hks k hk))
    simp only [baseScores, List.mem_cons, List.not_mem_nil, or_false] at hp
    rcases hp with hp | hp | hp | hp | hp | hp | hp <;> rw [hp]
    · exact hz invoiceKeywords
        (fun k hk => by simp [allClassifierKeywords, hk])
    · exact hz poKeywords (fun k hk => by simp [allClassifierKeywords, hk])
    · exact hz doKeywords (fun k hk => by simp [allClassifierKeywords, hk])
    · exact hz quoteKeywords (fun k hk => by simp [allClassifierKeywords, hk])
    · exact hz receiptKeywords
        (fun k hk => by simp [allClassifierKeywords, hk])
    · exact hz contractKeywords
        (fun k hk => by simp [allClassifierKeywords, hk])

/-- With the ML model and the AI service out of play, `_classify_document`
reduces to the pure keyword scorer. -/
theorem classifyDocument_plain (env : ClassifyEnv) (text : String)
    (h1 : (env.mlAvailable && decide (50 < text.length)) = false)
    (h2 : (env.aiAvailable && decide (100 < text.length)) = false) :
    classifyDocument env text =
      ⟨if 0 < maxScoreOf (baseScores (text.toList.map Char.toLower))
          then pyMaxKey (baseScores (text.toList.map Char.toLower))
          else "general",
        if text.length < 50
          then min (95 / 100 : ℚ) (max (3 / 10)
            ((maxScoreOf (baseScores (text.toList.map Char.toLower)) : ℚ) / 10)) *
            (7 / 10)
          else min (95 / 100 : ℚ) (max (3 / 10)
            ((maxScoreOf (baseScores (text.toList.map Char.toLower)) : ℚ) / 10)),
        baseScores (text.toList.map Char.toLower)⟩ := by
  simp only [classifyDocument, h1, h2, Bool.false_eq_true, if_false]

/-- C10: with the trained model and the AI service both out of play (service
unavailable or the text at most its 50/100-character threshold),
`_classify_document` returns type `"general"` exactly when no keyword of any
category occurs in the lowercased text, and its confidence lies in
`[0.21, 0.95]`: clamped to `[0.3, 0.95]` from the keyword score and
multiplied by `0.7` for texts shorter than 50 characters. -/
theorem classify_document_keyword_fallback (env : ClassifyEnv) (text : String)
    (h1 : env.mlAvailable = false ∨ text.length ≤ 50)
    (h2 : env.aiAvailable = false ∨ text.length ≤ 100) :
    ((classifyDocument env text).type = "general" ↔
      ∀ k ∈ allClassifierKeywords,
        occursIn k.toList (text.toList.map Char.toLower) = false) ∧
    21 / 100 ≤ (classifyDocument env text).confidence ∧
    (classifyDocument env text).confidence ≤ 95 / 100 := by
  have hb1 : (env.mlAvailable && decide (50 < text.length)) = false := by
    rcases h1 with h | h
    · simp [h]
    · simp [Nat.not_lt.mpr h]
  have hb2 : (env.aiAvailable && decide (100 < text.length)) = false := by
    rcases h2 with h | h
    · simp [h]
    · simp [Nat.not_lt.mpr h]
  rw [classifyDocument_plain env text hb1 hb2]
  refine ⟨?_, ?_, ?_⟩
  · show (if 0 < maxScoreOf (baseScores (text.toList.map Char.toLower))
        then pyMaxKey (baseScores (text.toList.map Char.toLower))
        else "general") = "general" ↔ _
    rw [← baseScores_zero_iff]
    by_cases h : 0 < maxScoreOf (baseScores (text.toList.map Char.toLower))
    · rw [if_pos h]
      constructor
      · intro hg
        exact absurd hg (pyMaxKey_scores_ne_general _ _ _ _ _ _ h)
      · intro h0
        omega
    · rw [if_neg h]
      exact iff_of_true rfl (by omega)
  · show (21 / 100 : ℚ) ≤
      (if text.length < 50
        then min (95 / 100 : ℚ) (max (3 / 10)
          ((maxScoreOf (baseScores (text.toList.map Char.toLower)) : ℚ) / 10)) *
          (7 / 10)
        else min (95 / 100 : ℚ) (max (3 / 10)
          ((maxScoreOf (baseScores (text.toList.map Char.toLower)) : ℚ) / 10)))
    have hc0l : (3 / 10 : ℚ) ≤ min (95 / 100)
        (max (3 / 10)
          ((maxScoreOf (baseScores (text.toList.map Char.toLower)) : ℚ) / 10)) :=
      le_min (by norm_num) (le_max_left _ _)
    by_cases hlen : text.length < 50
    · rw [if_pos hlen]
      calc (21 / 100 : ℚ) = (3 / 10) * (7 / 10) := by norm_num
        _ ≤ _ := mul_le_mul_of_nonneg_right hc0l (by norm_num)
    · rw [if_neg hlen]
      exact le_trans (by norm_num) hc0l
  · show (if text.length < 50
        then min (95 / 100 : ℚ) (max (3 / 10)
          ((maxScoreOf (baseScores (text.toList.map Char.toLower)) : ℚ) / 10)) *
          (7 / 10)
        else min (95 / 100 : ℚ) (max (3 / 10)
          ((maxScoreOf (baseScores (text.toList.map Char.toLower)) : ℚ) / 10))) ≤
      95 / 100
    have hc0u : min (95 / 100 : ℚ)
        (max (3 / 10)
          ((maxScoreOf (baseScores (text.toList.map Char.toLower)) : ℚ) / 10)) ≤
        95 / 100 := min_le_left _ _
    by_cases hlen : text.length < 50
    · rw [if_pos hlen]
      calc _ ≤ (95 / 100 : ℚ) * (7 / 10) :=
          mul_le_mul_of_nonneg_right hc0u (by norm_num)
        _ ≤ 95 / 100 := by norm_num
    · rw [if_neg hlen]
      exact hc0u

/-- C10 witness: the keyword fallback on two short texts, one with an
invoice keyword and one with none. -/
theorem classify_document_keyword_fallback_witness :
    (((classifyDocument clsPlain "hello world").type = "general" ↔
      ∀ k ∈ allClassifierKeywords,
        occursIn k.toList ("hello world".toList.map Char.toLower) = false) ∧
     21 / 100 ≤ (classifyDocument clsPlain "hello world").confidence ∧
     (classifyDocument clsPlain "hello world").confidence ≤ 95 / 100) ∧
    (((classifyDocument clsPlain "INVOICE # 12").type = "general" ↔
      ∀ k ∈ allClassifierKeywords,
        occursIn k.toList ("INVOICE # 12".toList.map Char.toLower) = false) ∧
     21 / 100 ≤ (classifyDocument clsPlain "INVOICE # 12").confidence ∧
     (classifyDocument clsPlain "INVOICE # 12").confidence ≤ 95 / 100) :=
  ⟨classify_document_keyword_fallback clsPlain "hello world"
      (Or.inl rfl) (Or.inl rfl),
    classify_document_keyword_fallback clsPlain "INVOICE # 12"
      (Or.inl rfl) (Or.inl rfl)⟩
